import Mathlib

/-!
Shallow embedding of the room/session lifecycle and message-relay engine of
`metrics-host.js` (the Metrics Host Server of the password-crisis repository).

Modelling conventions:
* JS `Map` objects become association lists with `Map.set`/`Map.delete`
  semantics (`aset`, `adel`); the room's `clients` map stores only its keys
  because in this server the map value (the socket) is identified by the
  generated client id that keys it.
* Sockets are identified by the connection's generated client id.  Socket
  writes, buffer pushes and asynchronous persistence calls are recorded as
  `Effect`s in the order the handler performs them; `readyState` transport
  guards are abstracted away (every live socket is writable), matching the
  best-effort fire-and-forget send path.
* `setTimeout` timers become explicit `Timer` values carrying their absolute
  fire time; `clearTimeout` removes them; due timers fire (in scheduling
  order) before the next event is handled.  A server-initiated `ws.close`
  runs the `close` handler immediately.
* The per-connection closure variable `room` is modelled by the session field
  `wsRoom` holding the room code, resolved against the registry at use sites
  (the two coincide unless a room object lingers after registry deletion,
  which requires a deleted room with live members and does not arise here).
* The MongoDB collections and the `clientSessions` bookkeeping map are not
  modelled: persistence is a best-effort attempt recorded as an effect.
-/

namespace MetricsHost

/-! ### Association-list helpers (JS `Map` semantics) -/

def alookup {β : Type} (l : List (String × β)) (k : String) : Option β :=
  match l with
  | [] => none
  | (k2, v2) :: rest => if k2 = k then some v2 else alookup rest k

def aset {β : Type} (l : List (String × β)) (k : String) (v : β) :
    List (String × β) :=
  match l with
  | [] => [(k, v)]
  | (k2, v2) :: rest => if k2 = k then (k, v) :: rest else (k2, v2) :: aset rest k v

def adel {β : Type} (l : List (String × β)) (k : String) : List (String × β) :=
  match l with
  | [] => []
  | (k2, v2) :: rest => if k2 = k then rest else (k2, v2) :: adel rest k

/-- Key set of the room `clients` Map: `Map.set` adds the key if absent. -/
def mapSetKey (l : List String) (k : String) : List String :=
  if l.contains k then l else l ++ [k]

/-- `Map.delete` on the key set (keys are unique, first occurrence removed). -/
def mapDelKey (l : List String) (k : String) : List String := l.erase k

/-! ### Configuration constants (`CONFIG`) -/

def MAX_CLIENTS_PER_ROOM : Nat := 50
def AUTH_TIMEOUT : Nat := 30000
def ROOM_DELETE_DELAY : Nat := 60000

/-! ### Payloads, metric records, alerts, settings -/

/-- The telemetry payload of a `metrics` message.  Only the fields inspected
by the server are modelled; a `none` field is a field absent from the JSON
object (JS `undefined`).  `ip`/`userAgent` are the fields the message handler
spreads into the payload before ingestion. -/
structure Payload where
  entropy : Option Int
  breached : Option Bool
  ip : Option String
  userAgent : Option String
deriving DecidableEq

/-- A metric record as built by `MetricsRoom.addMetrics` (payload spread plus
`clientId`, `roomCode` and the server-assigned arrival time). -/
structure MetricEntry where
  payload : Payload
  clientId : String
  roomCode : String
  receivedAt : Nat
deriving DecidableEq

inductive Severity where
  | warning
  | critical
deriving DecidableEq

structure Alert where
  kind : String
  severity : Severity
  text : String
deriving DecidableEq

structure RoomSettings where
  maxMetricsHistory : Nat
  enableRealTime : Bool
  enableAlerts : Bool
deriving DecidableEq

/-- A `room_settings` message body: each present field overwrites the room's
current value (`{...room.settings, ...settings}`). -/
structure SettingsPatch where
  maxMetricsHistory : Option Nat
  enableRealTime : Option Bool
  enableAlerts : Option Bool
deriving DecidableEq

def mergeSettings (s : RoomSettings) (p : SettingsPatch) : RoomSettings :=
  { maxMetricsHistory := p.maxMetricsHistory.getD s.maxMetricsHistory
    enableRealTime := p.enableRealTime.getD s.enableRealTime
    enableAlerts := p.enableAlerts.getD s.enableAlerts }

/-! ### Outbound messages and observable effects -/

inductive ServerMsg where
  | roomInfo (roomCode clientId role : String) (clientCount : Nat)
      (controllerConnected : Bool)
  | clientJoined (clientId : String) (clientCount : Nat)
  | clientLeft (clientId : String) (clientCount : Nat)
  | metricsMsg (fromId : String) (payload : Payload) (timestamp : Nat)
  | alertsMsg (alerts : List Alert)
  | settingsUpdated (settings : RoomSettings)
  | errorMsg (text : String)
  | pong (timestamp : Nat)
deriving DecidableEq

inductive Effect where
  | bufferAppend (entry : MetricEntry)
  | persistAttempt (entry : MetricEntry)
  | send (target : String) (msg : ServerMsg)
  | closeSock (target : String) (reason : String)
deriving DecidableEq

/-! ### `MetricsRoom` -/

structure MetricsRoom where
  code : String
  controller : Option String
  clients : List String
  metrics : List MetricEntry
  settings : RoomSettings
  createdAt : Nat
  lastActivity : Nat
deriving DecidableEq

/-- `new MetricsRoom(code)` with its default settings. -/
def roomNew (code : String) (now : Nat) : MetricsRoom :=
  { code := code
    controller := none
    clients := []
    metrics := []
    settings := { maxMetricsHistory := 1000, enableRealTime := true, enableAlerts := true }
    createdAt := now
    lastActivity := now }

/-- `sendToController`: emit the send iff a controller reference is attached. -/
def sendToControllerEff (r : MetricsRoom) (msg : ServerMsg) : List Effect :=
  match r.controller with
  | some c => [Effect.send c msg]
  | none => []

/-- The `ws.role` value assigned by `addClient`: the `else` branch of the
role test stamps every non-`controller` role as `'client'`. -/
def wsRoleFor (role : String) : String :=
  if role = "controller" then "controller" else "client"

/-- `MetricsRoom.addClient(clientId, ws, role)`.  Returns the updated room,
the `ws.role` value assigned to the socket, and the sends performed
(`room_info` to the joiner, then `client_joined` to the controller when the
request role is `'client'`). -/
def MetricsRoom.addClient (r : MetricsRoom) (cid role : String) (now : Nat) :
    MetricsRoom × String × List Effect :=
  let r1 :=
    if role = "controller" then { r with controller := some cid }
    else { r with clients := mapSetKey r.clients cid }
  let r2 := { r1 with lastActivity := now }
  let infoEff :=
    Effect.send cid
      (ServerMsg.roomInfo r2.code cid role r2.clients.length r2.controller.isSome)
  let joinEff :=
    if role = "client" then
      sendToControllerEff r2 (ServerMsg.clientJoined cid r2.clients.length)
    else []
  (r2, wsRoleFor role, infoEff :: joinEff)

/-- `MetricsRoom.removeClient(clientId, role)`: a `'controller'` role nulls
the controller slot unconditionally; any other role value deletes the id
from the clients map.  Emits `client_left` to the controller when the role
was `'client'`. -/
def MetricsRoom.removeClient (r : MetricsRoom) (cid role : String) (now : Nat) :
    MetricsRoom × List Effect :=
  let r1 :=
    if role = "controller" then { r with controller := none }
    else { r with clients := mapDelKey r.clients cid }
  let r2 := { r1 with lastActivity := now }
  let effs :=
    if role = "client" then
      sendToControllerEff r2 (ServerMsg.clientLeft cid r2.clients.length)
    else []
  (r2, effs)

/-! ### Alerts and metric ingestion -/

def lowEntropyAlert (cid : String) (e : Int) : Alert :=
  { kind := "low_entropy"
    severity := Severity.warning
    text := "Client " ++ cid.take 8 ++ " has very low password entropy: " ++ toString e }

def breachedAlert (cid : String) : Alert :=
  { kind := "breached_password"
    severity := Severity.critical
    text := "Client " ++ cid.take 8 ++ " attempted to use a breached password!" }

/-- The JS comparison `metrics.entropy < 20`: a missing field (`undefined`)
compares false. -/
def entropyBelow20 (m : Payload) : Bool :=
  match m.entropy with
  | some e => decide (e < 20)
  | none => false

/-- The JS truthiness test `if (metrics.breached)` on the breach flag. -/
def breachedTruthy (m : Payload) : Bool := m.breached = some true

/-- The alert batch built by `checkAlerts` (empty when alerts are disabled). -/
def MetricsRoom.alertsFor (r : MetricsRoom) (cid : String) (m : Payload) :
    List Alert :=
  if r.settings.enableAlerts then
    (match m.entropy with
     | some e => if e < 20 then [lowEntropyAlert cid e] else []
     | none => []) ++
    (if breachedTruthy m then [breachedAlert cid] else [])
  else []

/-- `MetricsRoom.checkAlerts`: evaluate the rules and, when the batch is
non-empty, send one `alerts` message to the controller. -/
def MetricsRoom.checkAlerts (r : MetricsRoom) (cid : String) (m : Payload) :
    List Effect :=
  let alerts := r.alertsFor cid m
  if alerts.isEmpty then []
  else sendToControllerEff r (ServerMsg.alertsMsg alerts)

/-- `arr.slice(-n)` on the metrics buffer.  JS `-0 === 0`, so `slice(-0)`
returns the whole array; otherwise the last `n` entries survive. -/
def sliceLast (l : List MetricEntry) (n : Nat) : List MetricEntry :=
  if n = 0 then l else l.drop (l.length - n)

def mkEntry (code cid : String) (m : Payload) (now : Nat) : MetricEntry :=
  { payload := m, clientId := cid, roomCode := code, receivedAt := now }

/-- `MetricsRoom.addMetrics(clientId, metrics)`: push the record, trim the
buffer to `maxMetricsHistory`, attempt persistence, forward to the
controller, then evaluate alerts. -/
def MetricsRoom.addMetrics (r : MetricsRoom) (cid : String) (m : Payload)
    (now : Nat) : MetricsRoom × List Effect :=
  let entry := mkEntry r.code cid m now
  let pushed := r.metrics ++ [entry]
  let trimmed :=
    if pushed.length > r.settings.maxMetricsHistory then
      sliceLast pushed r.settings.maxMetricsHistory
    else pushed
  let r1 := { r with metrics := trimmed, lastActivity := now }
  let effs :=
    Effect.bufferAppend entry ::
    Effect.persistAttempt entry ::
    (sendToControllerEff r1 (ServerMsg.metricsMsg cid m now) ++
     r1.checkAlerts cid m)
  (r1, effs)

/-! ### Room registry -/

/-- `POST /api/rooms`: generate a code (modelled as an oracle input, the
output of `generateRoomCode()`), build an empty room and `rooms.set` it.
There is no membership test on the generated code. -/
def createRoom (rooms : List (String × MetricsRoom)) (generatedCode : String)
    (now : Nat) : List (String × MetricsRoom) :=
  aset rooms generatedCode (roomNew generatedCode now)

/-! ### Connection sessions and the server state -/

/-- Per-connection state.  `role` is `ws.role` (set by `addClient`);
`wsRoom` is the handler closure's `room` variable, holding the target room's
code (set at `room = rooms.get(code)`, before the capacity check);
`closed` is the close reason once the socket is closed. -/
structure Session where
  ip : String
  userAgent : String
  role : Option String
  wsRoom : Option String
  closed : Option String
deriving DecidableEq

inductive Timer where
  | authTimer (sid : String) (fireAt : Nat)
  | deleteTimer (roomCode : String) (fireAt : Nat)
deriving DecidableEq

def timerFireAt : Timer → Nat
  | Timer.authTimer _ t => t
  | Timer.deleteTimer _ t => t

def isAuthTimerFor (sid : String) : Timer → Bool
  | Timer.authTimer sid2 _ => sid2 = sid
  | Timer.deleteTimer _ _ => false

structure ServerState where
  rooms : List (String × MetricsRoom)
  sessions : List (String × Session)
  timers : List Timer
deriving DecidableEq

def initialState : ServerState := { rooms := [], sessions := [], timers := [] }

/-- Inbound messages (`ws.on('message')` dispatch).  Missing JSON fields are
`none`; JS treats the empty string as falsy, so field truthiness is
`truthyS`. -/
inductive ClientMsg where
  | hello (role code : Option String)
  | metricsIn (payload : Option Payload)
  | roomSettings (settings : Option SettingsPatch)
  | ping
  | other
deriving DecidableEq

def truthyS : Option String → Bool
  | none => false
  | some s => !s.isEmpty

/-- External events driving the server: an HTTP room creation (carrying the
`generateRoomCode()` output), a socket connect (carrying the peer address
and user-agent header), an inbound message, and a transport-level close. -/
inductive Event where
  | createRoomEv (generatedCode : String)
  | connect (sid ip userAgent : String)
  | message (sid : String) (m : ClientMsg)
  | socketClose (sid : String)
deriving DecidableEq

/-- The `ws.on('close')` handler: clear this socket's auth timer, remove the
member from its room (with the assigned `ws.role`, or the missing-role
behaviour when it was never assigned), and schedule the empty-room deletion
check when the room is left with no controller and no clients. -/
def runCloseHandler (s : ServerState) (sid : String) (now : Nat) :
    ServerState × List Effect :=
  let timers1 := s.timers.filter (fun t => !isAuthTimerFor sid t)
  match alookup s.sessions sid with
  | none => ({ s with timers := timers1 }, [])
  | some sess =>
    match sess.wsRoom with
    | none => ({ s with timers := timers1 }, [])
    | some rc =>
      match alookup s.rooms rc with
      | none => ({ s with timers := timers1 }, [])
      | some r =>
        let (r1, effs) := r.removeClient sid (sess.role.getD "") now
        let timers2 :=
          if r1.clients.length = 0 ∧ r1.controller = none then
            timers1 ++ [Timer.deleteTimer rc (now + ROOM_DELETE_DELAY)]
          else timers1
        ({ s with rooms := aset s.rooms rc r1, timers := timers2 }, effs)

/-- Close a socket and run the close handler.  `emitClose` is true for a
server-initiated `ws.close(1000, reason)` (recorded as an effect); a
transport close arriving from the peer emits no effect of its own.
Closing an already-closed socket is a no-op. -/
def closeSession (s : ServerState) (sid reason : String) (emitClose : Bool)
    (now : Nat) : ServerState × List Effect :=
  match alookup s.sessions sid with
  | none => (s, [])
  | some sess =>
    if sess.closed.isSome then (s, [])
    else
      let s1 := { s with
        sessions := aset s.sessions sid { sess with closed := some reason } }
      let (s2, effs) := runCloseHandler s1 sid now
      (s2, (if emitClose then [Effect.closeSock sid reason] else []) ++ effs)

/-- The `hello` branch of the message handler. -/
def handleHello (s : ServerState) (sid : String) (role code : Option String)
    (now : Nat) : ServerState × List Effect :=
  let s0 := { s with timers := s.timers.filter (fun t => !isAuthTimerFor sid t) }
  if !truthyS role || !truthyS code then
    closeSession s0 sid "Invalid authentication" true now
  else
    let roleStr := role.getD ""
    let codeStr := code.getD ""
    match alookup s0.rooms codeStr with
    | none =>
      let (s1, effs) := closeSession s0 sid "Invalid room code" true now
      (s1, Effect.send sid (ServerMsg.errorMsg "Invalid room code") :: effs)
    | some r =>
      match alookup s0.sessions sid with
      | none => (s0, [])
      | some sess =>
        let s1 := { s0 with
          sessions := aset s0.sessions sid { sess with wsRoom := some codeStr } }
        if roleStr = "client" ∧ MAX_CLIENTS_PER_ROOM ≤ r.clients.length then
          let (s2, effs) := closeSession s1 sid "Room is full" true now
          (s2, Effect.send sid (ServerMsg.errorMsg "Room is full") :: effs)
        else
          let (r1, wsRole, effs) := r.addClient sid roleStr now
          let s2 := { s1 with rooms := aset s1.rooms codeStr r1 }
          let s3 := { s2 with
            sessions := aset s2.sessions sid
              { sess with wsRoom := some codeStr, role := some wsRole } }
          (s3, effs)

def uaOrUnknown (ua : String) : String := if ua = "" then "unknown" else ua

/-- Full `ws.on('message')` dispatch for one parsed message. -/
def handleMessage (s : ServerState) (sid : String) (m : ClientMsg) (now : Nat) :
    ServerState × List Effect :=
  match m with
  | ClientMsg.hello role code => handleHello s sid role code now
  | ClientMsg.metricsIn payload =>
    (match alookup s.sessions sid with
     | none => (s, [])
     | some sess =>
       match sess.wsRoom, payload with
       | some rc, some p =>
         if sess.role = some "client" then
           match alookup s.rooms rc with
           | some r =>
             let augmented := { p with
               ip := some sess.ip, userAgent := some (uaOrUnknown sess.userAgent) }
             let (r1, effs) := r.addMetrics sid augmented now
             ({ s with rooms := aset s.rooms rc r1 }, effs)
           | none => (s, [])
         else (s, [])
       | _, _ => (s, []))
  | ClientMsg.roomSettings settings =>
    (match alookup s.sessions sid with
     | none => (s, [])
     | some sess =>
       match sess.wsRoom, settings with
       | some rc, some p =>
         if sess.role = some "controller" then
           match alookup s.rooms rc with
           | some r =>
             let r1 := { r with settings := mergeSettings r.settings p }
             let effs := sendToControllerEff r1 (ServerMsg.settingsUpdated r1.settings)
             ({ s with rooms := aset s.rooms rc r1 }, effs)
           | none => (s, [])
         else (s, [])
       | _, _ => (s, []))
  | ClientMsg.ping => (s, [Effect.send sid (ServerMsg.pong now)])
  | ClientMsg.other => (s, [])

def handleEvent (s : ServerState) (now : Nat) (e : Event) :
    ServerState × List Effect :=
  match e with
  | Event.createRoomEv code => ({ s with rooms := createRoom s.rooms code now }, [])
  | Event.connect sid ip ua =>
    let sess : Session :=
      { ip := ip, userAgent := ua, role := none, wsRoom := none, closed := none }
    ({ s with
        sessions := aset s.sessions sid sess
        timers := s.timers ++ [Timer.authTimer sid (now + AUTH_TIMEOUT)] }, [])
  | Event.message sid m => handleMessage s sid m now
  | Event.socketClose sid => closeSession s sid "socket closed" false now

/-! ### Timer firing and trace semantics -/

/-- Fire one due timer.  The auth timer closes the socket with reason
"Authentication timeout" iff the closure's `room` variable is still unset
(`if (!room)`); the room-deletion timer re-checks that the room is still
empty and only then removes it from the registry. -/
def fireTimer (s : ServerState) (t : Timer) (now : Nat) :
    ServerState × List Effect :=
  match t with
  | Timer.authTimer sid _ =>
    (match alookup s.sessions sid with
     | none => (s, [])
     | some sess =>
       if sess.wsRoom = none then
         closeSession s sid "Authentication timeout" true now
       else (s, []))
  | Timer.deleteTimer rc _ =>
    (match alookup s.rooms rc with
     | none => (s, [])
     | some r =>
       if r.clients.length = 0 ∧ r.controller = none then
         ({ s with rooms := adel s.rooms rc }, [])
       else (s, []))

def fireTimers (s : ServerState) (due : List Timer) (now : Nat) :
    ServerState × List Effect :=
  match due with
  | [] => (s, [])
  | t :: rest =>
    let (s1, e1) := fireTimer s t now
    let (s2, e2) := fireTimers s1 rest now
    (s2, e1 ++ e2)

/-- Fire every pending timer whose deadline has passed, in scheduling
order, before handling the next event. -/
def fireDueTimers (s : ServerState) (now : Nat) : ServerState × List Effect :=
  let due := s.timers.filter (fun t => decide (timerFireAt t ≤ now))
  let rest := s.timers.filter (fun t => !decide (timerFireAt t ≤ now))
  fireTimers { s with timers := rest } due now

def stepTimed (s : ServerState) (te : Nat × Event) : ServerState × List Effect :=
  let (s1, e1) := fireDueTimers s te.1
  let (s2, e2) := handleEvent s1 te.1 te.2
  (s2, e1 ++ e2)

def runTrace (s : ServerState) : List (Nat × Event) → ServerState × List Effect
  | [] => (s, [])
  | te :: rest =>
    let (s1, e1) := stepTimed s te
    let (s2, e2) := runTrace s1 rest
    (s2, e1 ++ e2)

/-- Run a trace, then let the clock advance to `tEnd` so that remaining due
timers fire. -/
def runTraceUntil (s : ServerState) (es : List (Nat × Event)) (tEnd : Nat) :
    ServerState × List Effect :=
  let (s1, e1) := runTrace s es
  let (s2, e2) := fireDueTimers s1 tEnd
  (s2, e1 ++ e2)

/-! ### Effect classifiers -/

def isBufferAppendE : Effect → Bool
  | Effect.bufferAppend _ => true
  | _ => false

def isPersistAttemptE : Effect → Bool
  | Effect.persistAttempt _ => true
  | _ => false

def isMetricsForward : Effect → Bool
  | Effect.send _ (ServerMsg.metricsMsg _ _ _) => true
  | _ => false

def isAlertsSend : Effect → Bool
  | Effect.send _ (ServerMsg.alertsMsg _) => true
  | _ => false

def isCloseEff : Effect → Bool
  | Effect.closeSock _ _ => true
  | _ => false

def isErrorSend : Effect → Bool
  | Effect.send _ (ServerMsg.errorMsg _) => true
  | _ => false

/-- Phase of an ingestion effect in `addMetrics`: append, persist, forward,
alert batch. -/
def effectPhase : Effect → Nat
  | Effect.bufferAppend _ => 0
  | Effect.persistAttempt _ => 1
  | Effect.send _ (ServerMsg.metricsMsg _ _ _) => 2
  | Effect.send _ (ServerMsg.alertsMsg _) => 3
  | _ => 4

/-! ### Association-list lemmas -/

theorem alookup_aset_self {β : Type} (l : List (String × β)) (k : String) (v : β) :
    alookup (aset l k v) k = some v := by
  induction l with
  | nil => simp [aset, alookup]
  | cons h t ih =>
    obtain ⟨k2, v2⟩ := h
    by_cases hk : k2 = k
    · subst hk; simp [aset, alookup]
    · simp [aset, alookup, hk, ih]

theorem alookup_aset_ne {β : Type} (l : List (String × β)) (k k' : String) (v : β)
    (h : k' ≠ k) : alookup (aset l k v) k' = alookup l k' := by
  have hne : ¬ k = k' := fun he => h he.symm
  induction l with
  | nil => simp [aset, alookup, hne]
  | cons hd t ih =>
    obtain ⟨k2, v2⟩ := hd
    by_cases hk : k2 = k
    · subst hk
      simp [aset, alookup, hne]
    · simp [aset, alookup, hk, ih]

theorem alookup_eq_none_of_not_mem {β : Type} (l : List (String × β)) (k : String)
    (h : k ∉ l.map Prod.fst) : alookup l k = none := by
  induction l with
  | nil => simp [alookup]
  | cons hd t ih =>
    obtain ⟨k2, v2⟩ := hd
    simp only [List.map_cons, List.mem_cons] at h
    push_neg at h
    have hne : ¬ k2 = k := fun he => h.1 he.symm
    simp [alookup, hne, ih h.2]

theorem mem_aset {β : Type} (l : List (String × β)) (k : String) (v : β)
    (p : String × β) (h : p ∈ aset l k v) : p ∈ l ∨ p = (k, v) := by
  induction l with
  | nil => simp [aset] at h; exact Or.inr h
  | cons hd t ih =>
    obtain ⟨k2, v2⟩ := hd
    by_cases hk : k2 = k
    · subst hk
      rcases (by simpa [aset] using h : p = (k2, v) ∨ p ∈ t) with h1 | h1
      · exact Or.inr h1
      · exact Or.inl (List.mem_cons_of_mem _ h1)
    · rcases (by simpa [aset, hk] using h : p = (k2, v2) ∨ p ∈ aset t k v) with h1 | h1
      · exact Or.inl (by simp [h1])
      · rcases ih h1 with h2 | h2
        · exact Or.inl (List.mem_cons_of_mem _ h2)
        · exact Or.inr h2

theorem mem_adel {β : Type} (l : List (String × β)) (k : String)
    (p : String × β) (h : p ∈ adel l k) : p ∈ l := by
  induction l with
  | nil => simpa [adel] using h
  | cons hd t ih =>
    obtain ⟨k2, v2⟩ := hd
    by_cases hk : k2 = k
    · subst hk
      exact List.mem_cons_of_mem _ (by simpa [adel] using h)
    · rcases (by simpa [adel, hk] using h : p = (k2, v2) ∨ p ∈ adel t k) with h1 | h1
      · simp [h1]
      · exact List.mem_cons_of_mem _ (ih h1)

theorem keys_aset_nodup {β : Type} (l : List (String × β)) (k : String) (v : β)
    (h : (l.map Prod.fst).Nodup) : ((aset l k v).map Prod.fst).Nodup := by
  induction l with
  | nil => simp [aset]
  | cons hd t ih =>
    obtain ⟨k2, v2⟩ := hd
    simp only [List.map_cons, List.nodup_cons] at h
    by_cases hk : k2 = k
    · subst hk
      simpa [aset, List.nodup_cons] using h
    · have hnotin : k2 ∉ (aset t k v).map Prod.fst := by
        intro hin
        rcases List.mem_map.mp hin with ⟨p, hp, hfst⟩
        rcases mem_aset t k v p hp with h1 | h1
        · exact h.1 (List.mem_map.mpr ⟨p, h1, hfst⟩)
        · exact hk (by rw [h1] at hfst; simpa using hfst.symm)
      simp only [aset, hk, if_false, List.map_cons, List.nodup_cons]
      exact ⟨hnotin, ih h.2⟩

theorem alookup_adel_self {β : Type} (l : List (String × β)) (k : String)
    (h : (l.map Prod.fst).Nodup) : alookup (adel l k) k = none := by
  induction l with
  | nil => simp [adel, alookup]
  | cons hd t ih =>
    obtain ⟨k2, v2⟩ := hd
    simp only [List.map_cons, List.nodup_cons] at h
    by_cases hk : k2 = k
    · subst hk
      simp only [adel, if_pos rfl]
      exact alookup_eq_none_of_not_mem t k2 h.1
    · simp [adel, hk, alookup, ih h.2]

theorem mapSetKey_mem (l : List String) (k x : String) (h : x ∈ mapSetKey l k) :
    x ∈ l ∨ x = k := by
  unfold mapSetKey at h
  by_cases hc : k ∈ l
  · simp [hc] at h; exact Or.inl h
  · simp [hc] at h; exact h

theorem mapSetKey_length (l : List String) (k : String) :
    (mapSetKey l k).length ≤ l.length + 1 := by
  unfold mapSetKey
  by_cases hc : k ∈ l <;> simp [hc]

theorem aset_aset {β : Type} (l : List (String × β)) (k : String) (v1 v2 : β) :
    aset (aset l k v1) k v2 = aset l k v2 := by
  induction l with
  | nil => simp [aset]
  | cons hd t ih =>
    obtain ⟨k2, v0⟩ := hd
    by_cases hk : k2 = k
    · subst hk; simp [aset]
    · simp [aset, hk, ih]

/-! ### `hello` handler characterizations -/

/-- A `hello` whose `role` and `code` are both truthy, whose code resolves,
and which does not hit the client-capacity rejection, registers the session
with the room via `addClient` and stamps the closure/socket state. -/
theorem handleHello_accepts (s : ServerState) (sid roleStr codeStr : String)
    (sess : Session) (r : MetricsRoom) (now : Nat)
    (hrole : roleStr ≠ "") (hcode : codeStr ≠ "")
    (hsess : alookup s.sessions sid = some sess)
    (hroom : alookup s.rooms codeStr = some r)
    (hcap : ¬ (roleStr = "client" ∧ MAX_CLIENTS_PER_ROOM ≤ r.clients.length)) :
    handleHello s sid (some roleStr) (some codeStr) now =
      ({ rooms := aset s.rooms codeStr (r.addClient sid roleStr now).1
         sessions := aset s.sessions sid
           { sess with wsRoom := some codeStr, role := some (wsRoleFor roleStr) }
         timers := s.timers.filter (fun t => !isAuthTimerFor sid t) },
       (r.addClient sid roleStr now).2.2) := by
  have hre : roleStr.isEmpty = false := by
    rw [Bool.eq_false_iff]; intro hm; exact hrole ((String.isEmpty_iff _).mp hm)
  have hce : codeStr.isEmpty = false := by
    rw [Bool.eq_false_iff]; intro hm; exact hcode ((String.isEmpty_iff _).mp hm)
  unfold handleHello
  simp only [truthyS, hre, hce, Bool.not_false, Bool.not_true, Bool.or_self,
    Bool.false_eq_true, if_false, Option.getD_some, hroom, hsess, hcap,
    MetricsRoom.addClient]
  simp [MetricsRoom.addClient, aset_aset]

/-- A `hello` with a missing (falsy) role or code on an unauthenticated open
session is answered by a bare close with reason "Invalid authentication" —
no `error` message is sent. -/
theorem handleHello_missing_field (s : ServerState) (sid : String)
    (role code : Option String) (sess : Session) (now : Nat)
    (hsess : alookup s.sessions sid = some sess)
    (hopen : sess.closed = none) (hwr : sess.wsRoom = none)
    (hbad : truthyS role = false ∨ truthyS code = false) :
    (handleHello s sid role code now).2 =
      [Effect.closeSock sid "Invalid authentication"] := by
  have hcond : (!truthyS role || !truthyS code) = true := by
    rcases hbad with hb | hb <;> simp [hb]
  unfold handleHello
  simp only [hcond, if_true, closeSession, hsess, hopen, Option.isSome_none,
    Bool.false_eq_true, if_false, runCloseHandler, alookup_aset_self, hwr]
  rfl

/-- A `hello` with truthy role and code naming no live room is answered by
an `error` message "Invalid room code" followed by a close with the same
reason. -/
theorem handleHello_unknown_code (s : ServerState) (sid roleStr codeStr : String)
    (sess : Session) (now : Nat)
    (hrole : roleStr ≠ "") (hcode : codeStr ≠ "")
    (hsess : alookup s.sessions sid = some sess)
    (hopen : sess.closed = none) (hwr : sess.wsRoom = none)
    (hroom : alookup s.rooms codeStr = none) :
    (handleHello s sid (some roleStr) (some codeStr) now).2 =
      [Effect.send sid (ServerMsg.errorMsg "Invalid room code"),
       Effect.closeSock sid "Invalid room code"] := by
  have hre : roleStr.isEmpty = false := by
    rw [Bool.eq_false_iff]; intro hm; exact hrole ((String.isEmpty_iff _).mp hm)
  have hce : codeStr.isEmpty = false := by
    rw [Bool.eq_false_iff]; intro hm; exact hcode ((String.isEmpty_iff _).mp hm)
  unfold handleHello
  simp only [truthyS, hre, hce, Bool.not_false, Bool.not_true, Bool.or_self,
    Bool.false_eq_true, if_false, Option.getD_some, hroom, closeSession, hsess,
    hopen, Option.isSome_none, runCloseHandler, alookup_aset_self, hwr]
  simp

/-- A `hello` with role exactly `'client'` to a room at or above the client
cap is answered by an `error` message "Room is full" and a close with the
same reason, and the room's client set is left unchanged. -/
theorem handleHello_room_full (s : ServerState) (sid codeStr : String)
    (sess : Session) (r : MetricsRoom) (now : Nat)
    (hcode : codeStr ≠ "")
    (hsess : alookup s.sessions sid = some sess)
    (hopen : sess.closed = none) (hrole : sess.role = none)
    (hroom : alookup s.rooms codeStr = some r)
    (hfull : MAX_CLIENTS_PER_ROOM ≤ r.clients.length)
    (hnotmem : sid ∉ r.clients) :
    (handleHello s sid (some "client") (some codeStr) now).2 =
      [Effect.send sid (ServerMsg.errorMsg "Room is full"),
       Effect.closeSock sid "Room is full"] ∧
    (alookup (handleHello s sid (some "client") (some codeStr) now).1.rooms
       codeStr).map MetricsRoom.clients = some r.clients := by
  have hce : codeStr.isEmpty = false := by
    rw [Bool.eq_false_iff]; intro hm; exact hcode ((String.isEmpty_iff _).mp hm)
  have hlen : ¬ (r.clients.length = 0 ∧ r.controller = none) := by
    intro hz
    rw [hz.1] at hfull
    exact absurd hfull (by decide)
  have herase : mapDelKey r.clients sid = r.clients :=
    List.erase_of_not_mem hnotmem
  have h1 : ¬ (("" : String) = "controller") := by decide
  have h2 : ¬ (("" : String) = "client") := by decide
  have hlist : ¬ (mapDelKey r.clients sid = [] ∧ r.controller = none) := by
    rw [herase]
    intro hz
    rw [hz.1] at hfull
    exact absurd hfull (by decide)
  have h0 : ("client" : String).isEmpty = false := by decide
  unfold handleHello
  simp only [truthyS, h0, hce, Bool.not_false, Bool.not_true, Bool.or_self,
    Bool.false_eq_true, if_false, Option.getD_some, hroom, hsess]
  norm_num [hfull, closeSession, alookup_aset_self, hopen, runCloseHandler,
    MetricsRoom.removeClient, hrole, Option.getD_none, herase, hlen, hlist,
    aset_aset, sendToControllerEff, h1, h2, hroom]

/-! ## Claim theorems -/

/-- Claim C10 (confirmed).  `removeClient` with role `'controller'` nulls the
room's controller reference unconditionally, never comparing the closing
socket with the current controller reference; consequently, at the server
level, the transport close of any socket whose assigned role is
`'controller'` (in particular an orphaned, already-replaced controller)
leaves the room with no controller, detaching whatever controller was
active. -/
theorem removeClient_controller_unconditional :
    (∀ (r : MetricsRoom) (cid : String) (now : Nat),
      ((r.removeClient cid "controller" now).1).controller = none) ∧
    (∀ (s : ServerState) (sid rc : String) (sess : Session) (r : MetricsRoom)
        (now : Nat),
      alookup s.sessions sid = some sess → sess.closed = none →
      sess.role = some "controller" → sess.wsRoom = some rc →
      alookup s.rooms rc = some r →
      (alookup ((handleEvent s now (Event.socketClose sid)).1).rooms rc).map
        MetricsRoom.controller = some none) := by
  constructor
  · intro r cid now
    simp [MetricsRoom.removeClient]
  · intro s sid rc sess r now hsess hopen hrole hroom hr
    simp only [handleEvent, closeSession, hsess, hopen, Option.isSome_none,
      Bool.false_eq_true, if_false, runCloseHandler, alookup_aset_self, hroom]
    simp [hr, hrole, MetricsRoom.removeClient, alookup_aset_self]

/-- Witness for C10's second conjunct at a concrete state: a room whose
active controller is `new`, while the orphaned session `old` (still stamped
role `controller`) closes; the slot is nulled. -/
theorem removeClient_controller_unconditional_witness :
    (alookup
      ((handleEvent
        { rooms := [("R", { roomNew "R" 0 with controller := some "new" })]
          sessions := [("old",
            { ip := "i", userAgent := "u", role := some "controller"
              wsRoom := some "R", closed := none })]
          timers := [] } 9 (Event.socketClose "old")).1).rooms "R").map
      MetricsRoom.controller = some none :=
  removeClient_controller_unconditional.2
    { rooms := [("R", { roomNew "R" 0 with controller := some "new" })]
      sessions := [("old",
        { ip := "i", userAgent := "u", role := some "controller"
          wsRoom := some "R", closed := none })]
      timers := [] }
    "old" "R"
    { ip := "i", userAgent := "u", role := some "controller"
      wsRoom := some "R", closed := none }
    { roomNew "R" 0 with controller := some "new" } 9
    (by decide) rfl rfl rfl (by decide)

/-- Claim C9 (confirmed).  A second valid controller `hello` on a room with
an attached controller replaces the controller reference with the new
session; every effect of the handling is a send to the new session (so the
old controller's socket is neither closed nor notified), the old session's
state is untouched, and the room holds at most one controller afterwards
(the slot is a single reference, now the new session). -/
theorem second_controller_hello_replaces (s : ServerState) (sid oldC code : String)
    (sess : Session) (r : MetricsRoom) (now : Nat)
    (hsess : alookup s.sessions sid = some sess)
    (hroom : alookup s.rooms code = some r)
    (hctrl : r.controller = some oldC)
    (hne : oldC ≠ sid)
    (hcode : code ≠ "") :
    ((alookup (handleMessage s sid
        (ClientMsg.hello (some "controller") (some code)) now).1.rooms code).map
      MetricsRoom.controller = some (some sid)) ∧
    (∀ e ∈ (handleMessage s sid
        (ClientMsg.hello (some "controller") (some code)) now).2,
      ∃ msg, e = Effect.send sid msg) ∧
    (alookup (handleMessage s sid
        (ClientMsg.hello (some "controller") (some code)) now).1.sessions oldC =
      alookup s.sessions oldC) := by
  have hacc := handleHello_accepts s sid "controller" code sess r now
    (by decide) hcode hsess hroom (fun h => absurd h.1 (by decide))
  simp only [handleMessage, hacc]
  refine ⟨?_, ?_, ?_⟩
  · simp [alookup_aset_self, MetricsRoom.addClient]
  · intro e he
    have h3 : ¬ (("controller" : String) = "client") := by decide
    simp only [MetricsRoom.addClient, wsRoleFor] at he
    simp [h3] at he
    exact ⟨_, he⟩
  · exact alookup_aset_ne _ _ _ _ hne

/-- Witness for C9 at a concrete state: room `R` has controller `A`; a
second controller `hello` from session `B` takes the slot silently. -/
theorem second_controller_hello_replaces_witness :
    ((alookup (handleMessage
        { rooms := [("R", { roomNew "R" 0 with controller := some "A" })]
          sessions := [("B",
            { ip := "i", userAgent := "u", role := none
              wsRoom := none, closed := none })]
          timers := [] } "B"
        (ClientMsg.hello (some "controller") (some "R")) 3).1.rooms "R").map
      MetricsRoom.controller = some (some "B")) ∧
    (∀ e ∈ (handleMessage
        { rooms := [("R", { roomNew "R" 0 with controller := some "A" })]
          sessions := [("B",
            { ip := "i", userAgent := "u", role := none
              wsRoom := none, closed := none })]
          timers := [] } "B"
        (ClientMsg.hello (some "controller") (some "R")) 3).2,
      ∃ msg, e = Effect.send "B" msg) ∧
    (alookup (handleMessage
        { rooms := [("R", { roomNew "R" 0 with controller := some "A" })]
          sessions := [("B",
            { ip := "i", userAgent := "u", role := none
              wsRoom := none, closed := none })]
          timers := [] } "B"
        (ClientMsg.hello (some "controller") (some "R")) 3).1.sessions "A" =
      alookup
        [("B", { ip := "i", userAgent := "u", role := none
                 wsRoom := none, closed := none : Session })] "A") :=
  second_controller_hello_replaces
    { rooms := [("R", { roomNew "R" 0 with controller := some "A" })]
      sessions := [("B",
        { ip := "i", userAgent := "u", role := none
          wsRoom := none, closed := none })]
      timers := [] } "B" "A" "R"
    { ip := "i", userAgent := "u", role := none, wsRoom := none, closed := none }
    { roomNew "R" 0 with controller := some "A" } 3
    (by decide) (by decide) rfl (by decide) (by decide)

/-- The effect list of `addMetrics`, exposed structurally: append, persist,
controller forward, then the alert batch. -/
theorem addMetrics_effects (r : MetricsRoom) (cid : String) (m : Payload)
    (now : Nat) :
    (r.addMetrics cid m now).2 =
      Effect.bufferAppend (mkEntry r.code cid m now) ::
      Effect.persistAttempt (mkEntry r.code cid m now) ::
      (sendToControllerEff r (ServerMsg.metricsMsg cid m now) ++
       (if (r.alertsFor cid m).isEmpty then []
        else sendToControllerEff r (ServerMsg.alertsMsg (r.alertsFor cid m)))) :=
  rfl

/-- Claim C6 (confirmed).  With alerts enabled, rule evaluation on a payload
produces exactly one `low_entropy` warning iff the payload's entropy field
compares less than 20 (a missing field triggers nothing), exactly one
`breached_password` critical alert iff the breached field is (truthy) true;
evaluation is a total function that cannot fail the ingestion path, and all
alerts of one ingestion travel in a single `alerts` message. -/
theorem alert_rules_exact (r : MetricsRoom) (cid : String) (m : Payload)
    (now : Nat) (hEn : r.settings.enableAlerts = true) :
    ((r.alertsFor cid m).countP (fun a => decide (a.kind = "low_entropy")) =
      if entropyBelow20 m then 1 else 0) ∧
    ((r.alertsFor cid m).countP (fun a => decide (a.kind = "breached_password")) =
      if breachedTruthy m then 1 else 0) ∧
    (m.entropy = none →
      (r.alertsFor cid m).countP (fun a => decide (a.kind = "low_entropy")) = 0) ∧
    (∀ a ∈ r.alertsFor cid m,
      (a.kind = "low_entropy" → a.severity = Severity.warning) ∧
      (a.kind = "breached_password" → a.severity = Severity.critical)) ∧
    ((r.addMetrics cid m now).2.countP isAlertsSend ≤ 1) ∧
    (∀ tgt l, Effect.send tgt (ServerMsg.alertsMsg l) ∈ (r.addMetrics cid m now).2 →
      l = r.alertsFor cid m) := by
  obtain ⟨en, br, pip, pua⟩ := m
  refine ⟨?_, ?_, ?_, ?_, ?_, ?_⟩
  · cases en with
    | none =>
      cases br with
      | none => simp [MetricsRoom.alertsFor, hEn, entropyBelow20, breachedTruthy]
      | some b =>
        cases b <;>
          simp [MetricsRoom.alertsFor, hEn, entropyBelow20, breachedTruthy,
            breachedAlert, lowEntropyAlert]
    | some e =>
      by_cases he : e < 20 <;>
        cases br with
        | none =>
          simp [MetricsRoom.alertsFor, hEn, entropyBelow20, breachedTruthy,
            breachedAlert, lowEntropyAlert, he]
        | some b =>
          cases b <;>
            simp [MetricsRoom.alertsFor, hEn, entropyBelow20, breachedTruthy,
              breachedAlert, lowEntropyAlert, he]
  · cases en with
    | none =>
      cases br with
      | none => simp [MetricsRoom.alertsFor, hEn, entropyBelow20, breachedTruthy]
      | some b =>
        cases b <;>
          simp [MetricsRoom.alertsFor, hEn, entropyBelow20, breachedTruthy,
            breachedAlert, lowEntropyAlert]
    | some e =>
      by_cases he : e < 20 <;>
        cases br with
        | none =>
          simp [MetricsRoom.alertsFor, hEn, entropyBelow20, breachedTruthy,
            breachedAlert, lowEntropyAlert, he]
        | some b =>
          cases b <;>
            simp [MetricsRoom.alertsFor, hEn, entropyBelow20, breachedTruthy,
              breachedAlert, lowEntropyAlert, he]
  · intro hnone
    simp only at hnone
    subst hnone
    cases br with
    | none => simp [MetricsRoom.alertsFor, hEn, breachedTruthy]
    | some b =>
      cases b <;>
        simp [MetricsRoom.alertsFor, hEn, breachedTruthy, breachedAlert,
          lowEntropyAlert]
  · intro a ha
    have hsplit : a = lowEntropyAlert cid (en.getD 0) ∨ a = breachedAlert cid := by
      cases en with
      | none =>
        cases br with
        | none => simp [MetricsRoom.alertsFor, hEn, breachedTruthy] at ha
        | some b =>
          cases b with
          | false => simp [MetricsRoom.alertsFor, hEn, breachedTruthy] at ha
          | true =>
            simp [MetricsRoom.alertsFor, hEn, breachedTruthy] at ha
            exact Or.inr ha
      | some e =>
        cases br with
        | none =>
          by_cases he : e < 20
          · simp [MetricsRoom.alertsFor, hEn, breachedTruthy, he] at ha
            exact Or.inl (by simp [ha])
          · simp [MetricsRoom.alertsFor, hEn, breachedTruthy, he] at ha
        | some b =>
          cases b with
          | false =>
            by_cases he : e < 20
            · simp [MetricsRoom.alertsFor, hEn, breachedTruthy, he] at ha
              exact Or.inl (by simp [ha])
            · simp [MetricsRoom.alertsFor, hEn, breachedTruthy, he] at ha
          | true =>
            by_cases he : e < 20
            · simp [MetricsRoom.alertsFor, hEn, breachedTruthy, he] at ha
              rcases ha with h1 | h1
              · exact Or.inl (by simp [h1])
              · exact Or.inr h1
            · simp [MetricsRoom.alertsFor, hEn, breachedTruthy, he] at ha
              exact Or.inr ha
    rcases hsplit with rfl | rfl
    · constructor
      · intro _; rfl
      · intro hk
        exact absurd hk (by simp [lowEntropyAlert])
    · constructor
      · intro hk
        exact absurd hk (by simp [breachedAlert])
      · intro _; rfl
  · rw [addMetrics_effects]
    cases hc : r.controller with
    | none =>
      simp only [sendToControllerEff, hc]
      by_cases hemp :
          (MetricsRoom.alertsFor r cid ⟨en, br, pip, pua⟩).isEmpty = true <;>
        simp [hemp, isAlertsSend, List.countP_cons]
    | some c =>
      simp only [sendToControllerEff, hc]
      by_cases hemp :
          (MetricsRoom.alertsFor r cid ⟨en, br, pip, pua⟩).isEmpty = true <;>
        simp [hemp, isAlertsSend, List.countP_cons, List.countP_append]
  · intro tgt l hmem
    rw [addMetrics_effects] at hmem
    cases hc : r.controller with
    | none =>
      simp only [sendToControllerEff, hc] at hmem
      by_cases hemp :
          (MetricsRoom.alertsFor r cid ⟨en, br, pip, pua⟩).isEmpty = true <;>
        simp [hemp] at hmem
    | some c =>
      simp only [sendToControllerEff, hc] at hmem
      by_cases hemp :
          (MetricsRoom.alertsFor r cid ⟨en, br, pip, pua⟩).isEmpty = true
      · simp [hemp] at hmem
      · simp [hemp] at hmem
        exact hmem.2

/-- Witness for C6: a payload with entropy 10 and breached flag true inside
a room with alerts enabled yields both alerts in one batch. -/
theorem alert_rules_exact_witness :
    (((roomNew "R" 0).alertsFor "c1"
        { entropy := some 10, breached := some true, ip := none, userAgent := none
          }).countP (fun a => decide (a.kind = "low_entropy")) =
      if entropyBelow20
          { entropy := some 10, breached := some true, ip := none,
            userAgent := none } then 1 else 0) ∧
    (((roomNew "R" 0).alertsFor "c1"
        { entropy := some 10, breached := some true, ip := none, userAgent := none
          }).countP (fun a => decide (a.kind = "breached_password")) =
      if breachedTruthy
          { entropy := some 10, breached := some true, ip := none,
            userAgent := none } then 1 else 0) ∧
    (({ entropy := some 10, breached := some true, ip := none,
        userAgent := none : Payload }).entropy = none →
      (((roomNew "R" 0)).alertsFor "c1"
        { entropy := some 10, breached := some true, ip := none, userAgent := none
          }).countP (fun a => decide (a.kind = "low_entropy")) = 0) ∧
    (∀ a ∈ (roomNew "R" 0).alertsFor "c1"
        { entropy := some 10, breached := some true, ip := none, userAgent := none },
      (a.kind = "low_entropy" → a.severity = Severity.warning) ∧
      (a.kind = "breached_password" → a.severity = Severity.critical)) ∧
    (((roomNew "R" 0).addMetrics "c1"
        { entropy := some 10, breached := some true, ip := none, userAgent := none }
        7).2.countP isAlertsSend ≤ 1) ∧
    (∀ tgt l, Effect.send tgt (ServerMsg.alertsMsg l) ∈
        ((roomNew "R" 0).addMetrics "c1"
          { entropy := some 10, breached := some true, ip := none,
            userAgent := none } 7).2 →
      l = (roomNew "R" 0).alertsFor "c1"
        { entropy := some 10, breached := some true, ip := none, userAgent := none }) :=
  alert_rules_exact (roomNew "R" 0) "c1"
    { entropy := some 10, breached := some true, ip := none, userAgent := none }
    7 (by decide)

/-- Claim C1 (confirmed).  A `metrics` message from an authenticated client
session (role `client`, room attached) with a payload performs, in order:
exactly one buffer append, exactly one best-effort persistence attempt,
exactly one `metrics` forward iff a controller is attached, and at most one
batched alert send, with the phases in the order append, persist, forward,
alerts. -/
theorem metrics_ingestion_pipeline (s : ServerState) (sid rc : String)
    (sess : Session) (r : MetricsRoom) (p : Payload) (now : Nat)
    (hsess : alookup s.sessions sid = some sess)
    (hwr : sess.wsRoom = some rc)
    (hrole : sess.role = some "client")
    (hr : alookup s.rooms rc = some r) :
    ((handleMessage s sid (ClientMsg.metricsIn (some p)) now).2.countP
        isBufferAppendE = 1) ∧
    ((handleMessage s sid (ClientMsg.metricsIn (some p)) now).2.countP
        isPersistAttemptE = 1) ∧
    ((handleMessage s sid (ClientMsg.metricsIn (some p)) now).2.countP
        isMetricsForward = if r.controller.isSome then 1 else 0) ∧
    ((handleMessage s sid (ClientMsg.metricsIn (some p)) now).2.countP
        isAlertsSend ≤ 1) ∧
    (((handleMessage s sid (ClientMsg.metricsIn (some p)) now).2.map
        effectPhase).Sorted (· ≤ ·)) := by
  have heff : (handleMessage s sid (ClientMsg.metricsIn (some p)) now).2 =
      (r.addMetrics sid
        { p with ip := some sess.ip,
                 userAgent := some (uaOrUnknown sess.userAgent) } now).2 := by
    simp only [handleMessage, hsess, hwr, hrole, hr]
    simp
  rw [heff, addMetrics_effects]
  cases hc : r.controller with
  | none =>
    by_cases hemp : ((r.alertsFor sid
        { p with ip := some sess.ip,
                 userAgent := some (uaOrUnknown sess.userAgent) }).isEmpty = true)
    all_goals
      simp only [sendToControllerEff, hc, hemp, if_true, if_false,
        Bool.false_eq_true]
    all_goals
      refine ⟨?_, ?_, ?_, ?_, ?_⟩
    case pos.refine_5 =>
      simp only [List.map_cons, List.map_append, List.map_nil, effectPhase]
      decide
    case neg.refine_5 =>
      simp only [List.map_cons, List.map_append, List.map_nil, effectPhase]
      decide
    all_goals
      simp [List.countP_cons, List.countP_append, isBufferAppendE,
        isPersistAttemptE, isMetricsForward, isAlertsSend, hc]
  | some c =>
    by_cases hemp : ((r.alertsFor sid
        { p with ip := some sess.ip,
                 userAgent := some (uaOrUnknown sess.userAgent) }).isEmpty = true)
    all_goals
      simp only [sendToControllerEff, hc, hemp, if_true, if_false,
        Bool.false_eq_true]
    all_goals
      refine ⟨?_, ?_, ?_, ?_, ?_⟩
    case pos.refine_5 =>
      simp only [List.map_cons, List.map_append, List.map_nil, effectPhase]
      decide
    case neg.refine_5 =>
      simp only [List.map_cons, List.map_append, List.map_nil, effectPhase]
      decide
    all_goals
      simp [List.countP_cons, List.countP_append, isBufferAppendE,
        isPersistAttemptE, isMetricsForward, isAlertsSend, hc]

/-- Witness for C1: an authenticated client session `c1` in room `R` with a
controller attached; the pipeline properties hold at this concrete state. -/
theorem metrics_ingestion_pipeline_witness :
    ((handleMessage
        { rooms := [("R", { roomNew "R" 0 with
            controller := some "ctl", clients := ["c1"] })]
          sessions := [("c1",
            { ip := "9.9.9.9", userAgent := "ua", role := some "client"
              wsRoom := some "R", closed := none })]
          timers := [] } "c1"
        (ClientMsg.metricsIn (some
          { entropy := some 10, breached := some true, ip := none,
            userAgent := none })) 4).2.countP isBufferAppendE = 1) ∧
    ((handleMessage
        { rooms := [("R", { roomNew "R" 0 with
            controller := some "ctl", clients := ["c1"] })]
          sessions := [("c1",
            { ip := "9.9.9.9", userAgent := "ua", role := some "client"
              wsRoom := some "R", closed := none })]
          timers := [] } "c1"
        (ClientMsg.metricsIn (some
          { entropy := some 10, breached := some true, ip := none,
            userAgent := none })) 4).2.countP isPersistAttemptE = 1) ∧
    ((handleMessage
        { rooms := [("R", { roomNew "R" 0 with
            controller := some "ctl", clients := ["c1"] })]
          sessions := [("c1",
            { ip := "9.9.9.9", userAgent := "ua", role := some "client"
              wsRoom := some "R", closed := none })]
          timers := [] } "c1"
        (ClientMsg.metricsIn (some
          { entropy := some 10, breached := some true, ip := none,
            userAgent := none })) 4).2.countP isMetricsForward =
      if ({ roomNew "R" 0 with
            controller := some "ctl", clients := ["c1"] }
          : MetricsRoom).controller.isSome then 1 else 0) ∧
    ((handleMessage
        { rooms := [("R", { roomNew "R" 0 with
            controller := some "ctl", clients := ["c1"] })]
          sessions := [("c1",
            { ip := "9.9.9.9", userAgent := "ua", role := some "client"
              wsRoom := some "R", closed := none })]
          timers := [] } "c1"
        (ClientMsg.metricsIn (some
          { entropy := some 10, breached := some true, ip := none,
            userAgent := none })) 4).2.countP isAlertsSend ≤ 1) ∧
    (((handleMessage
        { rooms := [("R", { roomNew "R" 0 with
            controller := some "ctl", clients := ["c1"] })]
          sessions := [("c1",
            { ip := "9.9.9.9", userAgent := "ua", role := some "client"
              wsRoom := some "R", closed := none })]
          timers := [] } "c1"
        (ClientMsg.metricsIn (some
          { entropy := some 10, breached := some true, ip := none,
            userAgent := none })) 4).2.map effectPhase).Sorted (· ≤ ·)) :=
  metrics_ingestion_pipeline
    { rooms := [("R", { roomNew "R" 0 with
        controller := some "ctl", clients := ["c1"] })]
      sessions := [("c1",
        { ip := "9.9.9.9", userAgent := "ua", role := some "client"
          wsRoom := some "R", closed := none })]
      timers := [] } "c1" "R"
    { ip := "9.9.9.9", userAgent := "ua", role := some "client"
      wsRoom := some "R", closed := none }
    ({ roomNew "R" 0 with controller := some "ctl", clients := ["c1"] })
    { entropy := some 10, breached := some true, ip := none, userAgent := none }
    4 (by decide) rfl rfl (by decide)

/-- Claim C2 counterexample.  `createRoom` performs no collision check: in a
run where the code generator's output collides with a live room's code, the
second create silently replaces the existing live room.  After the first
three events room `A1B2C3` is live with client `c1`; the fourth event — a
create whose generated code collides — leaves an empty fresh room under the
same code, with the joined client's membership erased. -/
theorem createRoom_replaces_live_room_counterexample :
    ((alookup (runTrace initialState
        [(0, Event.createRoomEv "A1B2C3"),
         (0, Event.connect "c1" "ip" "ua"),
         (0, Event.message "c1" (ClientMsg.hello (some "client") (some "A1B2C3")))]
        ).1.rooms "A1B2C3").map MetricsRoom.clients = some ["c1"]) ∧
    ((alookup (runTrace initialState
        [(0, Event.createRoomEv "A1B2C3"),
         (0, Event.connect "c1" "ip" "ua"),
         (0, Event.message "c1" (ClientMsg.hello (some "client") (some "A1B2C3"))),
         (7, Event.createRoomEv "A1B2C3")]
        ).1.rooms "A1B2C3").map MetricsRoom.clients = some []) := by
  decide

/-- Claim C2 (corrected).  `createRoom` registers a fresh empty room under
the generated code unconditionally — there is no collision check, and a
colliding create replaces the live room (see the counterexample).  What does
hold: the registered room is the fresh empty one, and because the registry
is a map with set semantics it never holds two distinct rooms under one
code (key uniqueness is preserved). -/
theorem createRoom_registers_fresh_room (rooms : List (String × MetricsRoom))
    (c : String) (now : Nat) :
    (alookup (createRoom rooms c now) c = some (roomNew c now)) ∧
    ((rooms.map Prod.fst).Nodup → ((createRoom rooms c now).map Prod.fst).Nodup) :=
  ⟨alookup_aset_self rooms c (roomNew c now),
   fun h => keys_aset_nodup rooms c (roomNew c now) h⟩

/-- Witness for the amended C2 at a registry already holding the colliding
code. -/
theorem createRoom_registers_fresh_room_witness :
    (alookup (createRoom [("A1B2C3", roomNew "A1B2C3" 0)] "A1B2C3" 5) "A1B2C3" =
      some (roomNew "A1B2C3" 5)) ∧
    (((createRoom [("A1B2C3", roomNew "A1B2C3" 0)] "A1B2C3" 5).map
        Prod.fst).Nodup) :=
  ⟨(createRoom_registers_fresh_room [("A1B2C3", roomNew "A1B2C3" 0)] "A1B2C3" 5).1,
   (createRoom_registers_fresh_room [("A1B2C3", roomNew "A1B2C3" 0)] "A1B2C3" 5).2
     (by decide)⟩

/-- The trace of the C5 counterexample: a controller and a client join room
`R`, the client ingests two metrics, then the controller lowers
`maxMetricsHistory` to 1 via `room_settings`. -/
def c5trace : List (Nat × Event) :=
  [(0, Event.createRoomEv "R"),
   (0, Event.connect "ctl" "ip" "ua"),
   (0, Event.message "ctl" (ClientMsg.hello (some "controller") (some "R"))),
   (0, Event.connect "c1" "ip" "ua"),
   (0, Event.message "c1" (ClientMsg.hello (some "client") (some "R"))),
   (1, Event.message "c1" (ClientMsg.metricsIn (some
     { entropy := some 50, breached := some false, ip := none, userAgent := none }))),
   (2, Event.message "c1" (ClientMsg.metricsIn (some
     { entropy := some 50, breached := some false, ip := none, userAgent := none }))),
   (3, Event.message "ctl" (ClientMsg.roomSettings (some
     { maxMetricsHistory := some 1, enableRealTime := none, enableAlerts := none })))]

/-- Claim C5 counterexample.  A `room_settings` update lowering
`maxMetricsHistory` does not trim the buffer: after two ingestions and a
settings update setting the capacity to 1, the room's buffer holds 2 entries
while its configured capacity is 1, violating "the buffer length never
exceeds the room's configured maxMetricsHistory". -/
theorem settings_shrink_without_trim_counterexample :
    ((alookup (runTrace initialState c5trace).1.rooms "R").map
      (fun r => r.metrics.length) = some 2) ∧
    ((alookup (runTrace initialState c5trace).1.rooms "R").map
      (fun r => r.settings.maxMetricsHistory) = some 1) := by
  decide

/-- Claim C5 (corrected).  After every metric ingestion into a room whose
current `maxMetricsHistory` is at least 1, the buffer length is at most
`maxMetricsHistory` and the surviving entries are a suffix of the appended
sequence (the oldest entries are the ones evicted, FIFO preserved); but a
settings update never touches the buffer, so lowering the capacity leaves
the buffer over capacity until the next ingestion (and a capacity of 0 makes
the `slice(-0)` trim a no-op). -/
theorem buffer_bounded_after_ingestion (r : MetricsRoom) (cid : String)
    (m : Payload) (now : Nat)
    (hcap : 1 ≤ r.settings.maxMetricsHistory) :
    ((r.addMetrics cid m now).1.metrics.length ≤ r.settings.maxMetricsHistory) ∧
    (((r.addMetrics cid m now).1.metrics).IsSuffix
      (r.metrics ++ [mkEntry r.code cid m now])) ∧
    (∀ p, ({ r with settings := mergeSettings r.settings p } : MetricsRoom).metrics
      = r.metrics) := by
  have hmet : (r.addMetrics cid m now).1.metrics =
      if (r.metrics ++ [mkEntry r.code cid m now]).length >
          r.settings.maxMetricsHistory then
        sliceLast (r.metrics ++ [mkEntry r.code cid m now])
          r.settings.maxMetricsHistory
      else r.metrics ++ [mkEntry r.code cid m now] := rfl
  have hnz : r.settings.maxMetricsHistory ≠ 0 := by omega
  refine ⟨?_, ?_, fun p => rfl⟩
  · rw [hmet]
    by_cases hgt : (r.metrics ++ [mkEntry r.code cid m now]).length >
        r.settings.maxMetricsHistory
    · rw [if_pos hgt]
      unfold sliceLast
      rw [if_neg hnz, List.length_drop]
      omega
    · rw [if_neg hgt]
      omega
  · rw [hmet]
    by_cases hgt : (r.metrics ++ [mkEntry r.code cid m now]).length >
        r.settings.maxMetricsHistory
    · rw [if_pos hgt]
      unfold sliceLast
      rw [if_neg hnz]
      exact List.drop_suffix _ _
    · rw [if_neg hgt]

/-- Witness for the amended C5 at a concrete full buffer: a room whose
capacity is 2 already holding 2 entries; the next ingestion evicts the
oldest entry and keeps the bound. -/
theorem buffer_bounded_after_ingestion_witness :
    ((({ roomNew "R" 0 with
          metrics := [mkEntry "R" "a" ⟨none, none, none, none⟩ 1,
                      mkEntry "R" "a" ⟨none, none, none, none⟩ 2]
          settings := { maxMetricsHistory := 2, enableRealTime := true,
                        enableAlerts := true } } : MetricsRoom).addMetrics "a"
        ⟨none, none, none, none⟩ 3).1.metrics.length ≤ 2) ∧
    (((({ roomNew "R" 0 with
          metrics := [mkEntry "R" "a" ⟨none, none, none, none⟩ 1,
                      mkEntry "R" "a" ⟨none, none, none, none⟩ 2]
          settings := { maxMetricsHistory := 2, enableRealTime := true,
                        enableAlerts := true } } : MetricsRoom).addMetrics "a"
        ⟨none, none, none, none⟩ 3).1.metrics).IsSuffix
      ([mkEntry "R" "a" ⟨none, none, none, none⟩ 1,
        mkEntry "R" "a" ⟨none, none, none, none⟩ 2] ++
       [mkEntry "R" "a" ⟨none, none, none, none⟩ 3])) ∧
    (∀ p, ({ ({ roomNew "R" 0 with
          metrics := [mkEntry "R" "a" ⟨none, none, none, none⟩ 1,
                      mkEntry "R" "a" ⟨none, none, none, none⟩ 2]
          settings := { maxMetricsHistory := 2, enableRealTime := true,
                        enableAlerts := true } } : MetricsRoom) with
        settings := mergeSettings ({ roomNew "R" 0 with
          metrics := [mkEntry "R" "a" ⟨none, none, none, none⟩ 1,
                      mkEntry "R" "a" ⟨none, none, none, none⟩ 2]
          settings := { maxMetricsHistory := 2, enableRealTime := true,
                        enableAlerts := true } } : MetricsRoom).settings p }
        : MetricsRoom).metrics =
      [mkEntry "R" "a" ⟨none, none, none, none⟩ 1,
       mkEntry "R" "a" ⟨none, none, none, none⟩ 2]) :=
  buffer_bounded_after_ingestion
    ({ roomNew "R" 0 with
        metrics := [mkEntry "R" "a" ⟨none, none, none, none⟩ 1,
                    mkEntry "R" "a" ⟨none, none, none, none⟩ 2]
        settings := { maxMetricsHistory := 2, enableRealTime := true,
                      enableAlerts := true } } : MetricsRoom)
    "a" ⟨none, none, none, none⟩ 3 (by decide)

/-- The trace of the C7 counterexample: client `a` joins room `R` and leaves
at t=5 (scheduling the deletion check for t=60005); client `b` joins at
t=30000 — during the grace period — and leaves again at t=40000. -/
def c7trace : List (Nat × Event) :=
  [(0, Event.createRoomEv "R"),
   (0, Event.connect "a" "ip" "ua"),
   (0, Event.message "a" (ClientMsg.hello (some "client") (some "R"))),
   (5, Event.socketClose "a"),
   (30000, Event.connect "b" "ip" "ua"),
   (30000, Event.message "b" (ClientMsg.hello (some "client") (some "R"))),
   (40000, Event.socketClose "b")]

/-- Claim C7 counterexample.  The pending deletion is not cancelled by a join
during the grace period: the check scheduled at t=5 (due t=60005) still
fires, and because `b` has left again by then it deletes the room at
t=60005 — before the 60s grace period from `b`'s leave (due t=100000) has
elapsed — even though a new member joined during the grace period.  The
first conjunct shows the room is still alive right after the trace; the
second shows it is gone once the clock passes the first check's deadline. -/
theorem grace_period_join_not_cancelling_counterexample :
    ((alookup (runTrace initialState c7trace).1.rooms "R").isSome = true) ∧
    (alookup (runTraceUntil initialState c7trace 70000).1.rooms "R" = none) := by
  decide

/-- Claim C7 (corrected).  The empty-room deletion check scheduled after the
last member leaves re-checks emptiness when it fires: it deletes the room
iff the room is empty at fire time (so a join whose member is still present
at the deadline makes the room survive, but the check is never cancelled,
and a join-then-leave during the grace period still loses the room at the
original deadline). -/
theorem delete_timer_rechecks_emptiness (s : ServerState) (rc : String)
    (r : MetricsRoom) (fa now : Nat)
    (hnodup : (s.rooms.map Prod.fst).Nodup)
    (hr : alookup s.rooms rc = some r) :
    alookup ((fireTimer s (Timer.deleteTimer rc fa) now).1).rooms rc =
      (if r.clients.length = 0 ∧ r.controller = none then none else some r) := by
  unfold fireTimer
  by_cases hempty : r.clients.length = 0 ∧ r.controller = none
  · simp only [hr, hempty, if_true, and_self]
    exact alookup_adel_self s.rooms rc hnodup
  · simp only [hr]
    rw [if_neg hempty, if_neg hempty]
    exact hr

/-- Witness for the amended C7: a non-empty room survives its fired deletion
check. -/
theorem delete_timer_rechecks_emptiness_witness :
    alookup ((fireTimer
      { rooms := [("R", { roomNew "R" 0 with clients := ["b"] })]
        sessions := [], timers := [] }
      (Timer.deleteTimer "R" 60005) 60005).1).rooms "R" =
      (if ({ roomNew "R" 0 with clients := ["b"] } : MetricsRoom).clients.length = 0 ∧
          ({ roomNew "R" 0 with clients := ["b"] } : MetricsRoom).controller = none
        then none
        else some ({ roomNew "R" 0 with clients := ["b"] } : MetricsRoom)) :=
  delete_timer_rechecks_emptiness
    { rooms := [("R", { roomNew "R" 0 with clients := ["b"] })]
      sessions := [], timers := [] }
    "R" ({ roomNew "R" 0 with clients := ["b"] }) 60005 60005
    (by decide) (by decide)

theorem mem_mapSetKey_self (l : List String) (k : String) : k ∈ mapSetKey l k := by
  unfold mapSetKey
  by_cases hc : k ∈ l <;> simp [hc]

theorem isCloseEff_sendToControllerEff (r : MetricsRoom) (msg : ServerMsg)
    (e : Effect) (he : e ∈ sendToControllerEff r msg) : isCloseEff e = false := by
  unfold sendToControllerEff at he
  cases hc : r.controller with
  | none => rw [hc] at he; simp at he
  | some c =>
    rw [hc] at he
    simp at he
    subst he
    rfl

/-- Claim C4 counterexample.  A `hello` with role `"observer"` — truthy but
outside `{controller, client}` — and a valid code is accepted: the session
is added to the room's client set, stays open, and the handling emits no
`error` message and no close.  This refutes "accepted iff role ∈
{controller, client}" and "every invalid hello is answered with an error
message and then closed" (a missing role is also closed without any error
message). -/
theorem invalid_role_accepted_counterexample :
    ((alookup (runTrace initialState
        [(0, Event.createRoomEv "R"),
         (0, Event.connect "x" "ip" "ua"),
         (0, Event.message "x" (ClientMsg.hello (some "observer") (some "R")))]
        ).1.rooms "R").map MetricsRoom.clients = some ["x"]) ∧
    ((alookup (runTrace initialState
        [(0, Event.createRoomEv "R"),
         (0, Event.connect "x" "ip" "ua"),
         (0, Event.message "x" (ClientMsg.hello (some "observer") (some "R")))]
        ).1.sessions "x").map Session.closed = some none) ∧
    ((runTrace initialState
        [(0, Event.createRoomEv "R"),
         (0, Event.connect "x" "ip" "ua"),
         (0, Event.message "x" (ClientMsg.hello (some "observer") (some "R")))]
        ).2.countP (fun e => isErrorSend e || isCloseEff e) = 0) := by
  decide

/-- Claim C4 (corrected).  A `hello` is accepted iff role and code are both
present (truthy) and the code resolves to a live room (and, when the role is
exactly `'client'`, the room is below capacity); the role's value is not
otherwise validated — any truthy non-`'controller'` role is admitted and
stamped `'client'`.  A missing role or code yields a close with reason
"Invalid authentication" and no error message; an unknown code yields an
`error` message and then a close. -/
theorem hello_validation_behavior :
    (∀ (s : ServerState) (sid : String) (role code : Option String)
        (sess : Session) (now : Nat),
      alookup s.sessions sid = some sess → sess.closed = none →
      sess.wsRoom = none →
      (truthyS role = false ∨ truthyS code = false) →
      (handleMessage s sid (ClientMsg.hello role code) now).2 =
        [Effect.closeSock sid "Invalid authentication"]) ∧
    (∀ (s : ServerState) (sid roleStr codeStr : String) (sess : Session)
        (now : Nat),
      roleStr ≠ "" → codeStr ≠ "" →
      alookup s.sessions sid = some sess → sess.closed = none →
      sess.wsRoom = none →
      alookup s.rooms codeStr = none →
      (handleMessage s sid (ClientMsg.hello (some roleStr) (some codeStr)) now).2 =
        [Effect.send sid (ServerMsg.errorMsg "Invalid room code"),
         Effect.closeSock sid "Invalid room code"]) ∧
    (∀ (s : ServerState) (sid roleStr codeStr : String) (sess : Session)
        (r : MetricsRoom) (now : Nat),
      roleStr ≠ "" → codeStr ≠ "" →
      alookup s.sessions sid = some sess →
      alookup s.rooms codeStr = some r →
      ¬ (roleStr = "client" ∧ MAX_CLIENTS_PER_ROOM ≤ r.clients.length) →
      ((alookup (handleMessage s sid
          (ClientMsg.hello (some roleStr) (some codeStr)) now).1.sessions sid).map
        Session.role = some (some (wsRoleFor roleStr))) ∧
      (∃ r2, alookup (handleMessage s sid
          (ClientMsg.hello (some roleStr) (some codeStr)) now).1.rooms codeStr =
            some r2 ∧
          (r2.controller = some sid ∨ sid ∈ r2.clients)) ∧
      (∀ e ∈ (handleMessage s sid
          (ClientMsg.hello (some roleStr) (some codeStr)) now).2,
        isCloseEff e = false)) := by
  refine ⟨?_, ?_, ?_⟩
  · intro s sid role code sess now hsess hopen hwr hbad
    exact handleHello_missing_field s sid role code sess now hsess hopen hwr hbad
  · intro s sid roleStr codeStr sess now hrole hcode hsess hopen hwr hroom
    exact handleHello_unknown_code s sid roleStr codeStr sess now hrole hcode
      hsess hopen hwr hroom
  · intro s sid roleStr codeStr sess r now hrole hcode hsess hroom hcap
    have hacc := handleHello_accepts s sid roleStr codeStr sess r now hrole hcode
      hsess hroom hcap
    simp only [handleMessage, hacc]
    refine ⟨?_, ?_, ?_⟩
    · rw [alookup_aset_self]
      rfl
    · refine ⟨(r.addClient sid roleStr now).1, alookup_aset_self _ _ _, ?_⟩
      by_cases hrc : roleStr = "controller"
      · exact Or.inl (by simp [MetricsRoom.addClient, hrc])
      · refine Or.inr ?_
        simp only [MetricsRoom.addClient, hrc, if_false]
        exact mem_mapSetKey_self r.clients sid
    · intro e he
      simp only [MetricsRoom.addClient] at he
      rcases List.mem_cons.mp he with h1 | h1
      · subst h1; rfl
      · by_cases hcl : roleStr = "client"
        · rw [if_pos hcl] at h1
          exact isCloseEff_sendToControllerEff _ _ e h1
        · rw [if_neg hcl] at h1
          simp at h1

/-- Witness for the amended C4, instantiating all three behaviours: a
missing role is closed without an error message; an unknown code gets an
error then a close; a truthy non-standard role `"observer"` is accepted and
stamped `'client'`. -/
theorem hello_validation_behavior_witness :
    ((handleMessage
        { rooms := [("R", roomNew "R" 0)]
          sessions := [("x", { ip := "i", userAgent := "u", role := none
                               wsRoom := none, closed := none })]
          timers := [] } "x" (ClientMsg.hello none (some "R")) 2).2 =
      [Effect.closeSock "x" "Invalid authentication"]) ∧
    ((handleMessage
        { rooms := [("R", roomNew "R" 0)]
          sessions := [("x", { ip := "i", userAgent := "u", role := none
                               wsRoom := none, closed := none })]
          timers := [] } "x" (ClientMsg.hello (some "client") (some "ZZ")) 2).2 =
      [Effect.send "x" (ServerMsg.errorMsg "Invalid room code"),
       Effect.closeSock "x" "Invalid room code"]) ∧
    (((alookup (handleMessage
        { rooms := [("R", roomNew "R" 0)]
          sessions := [("x", { ip := "i", userAgent := "u", role := none
                               wsRoom := none, closed := none })]
          timers := [] } "x"
        (ClientMsg.hello (some "observer") (some "R")) 2).1.sessions "x").map
        Session.role = some (some (wsRoleFor "observer"))) ∧
      (∃ r2, alookup (handleMessage
          { rooms := [("R", roomNew "R" 0)]
            sessions := [("x", { ip := "i", userAgent := "u", role := none
                                 wsRoom := none, closed := none })]
            timers := [] } "x"
          (ClientMsg.hello (some "observer") (some "R")) 2).1.rooms "R" =
            some r2 ∧
          (r2.controller = some "x" ∨ "x" ∈ r2.clients)) ∧
      (∀ e ∈ (handleMessage
          { rooms := [("R", roomNew "R" 0)]
            sessions := [("x", { ip := "i", userAgent := "u", role := none
                                 wsRoom := none, closed := none })]
            timers := [] } "x"
          (ClientMsg.hello (some "observer") (some "R")) 2).2,
        isCloseEff e = false)) :=
  ⟨hello_validation_behavior.1
      { rooms := [("R", roomNew "R" 0)]
        sessions := [("x", { ip := "i", userAgent := "u", role := none
                             wsRoom := none, closed := none })]
        timers := [] } "x" none (some "R")
      { ip := "i", userAgent := "u", role := none, wsRoom := none, closed := none }
      2 (by decide) rfl rfl (Or.inl rfl),
   hello_validation_behavior.2.1
      { rooms := [("R", roomNew "R" 0)]
        sessions := [("x", { ip := "i", userAgent := "u", role := none
                             wsRoom := none, closed := none })]
        timers := [] } "x" "client" "ZZ"
      { ip := "i", userAgent := "u", role := none, wsRoom := none, closed := none }
      2 (by decide) (by decide) (by decide) rfl rfl (by decide),
   hello_validation_behavior.2.2
      { rooms := [("R", roomNew "R" 0)]
        sessions := [("x", { ip := "i", userAgent := "u", role := none
                             wsRoom := none, closed := none })]
        timers := [] } "x" "observer" "R"
      { ip := "i", userAgent := "u", role := none, wsRoom := none, closed := none }
      (roomNew "R" 0) 2 (by decide) (by decide) (by decide) (by decide)
      (fun h => absurd h.1 (by decide))⟩

/-- 50 client `hello`s filling room `R` to `MAX_CLIENTS_PER_ROOM`. -/
def c3joinEvents : List (Nat × Event) :=
  (List.range 50).flatMap (fun i =>
    [(0, Event.connect ("c" ++ toString i) "ip" "ua"),
     (0, Event.message ("c" ++ toString i)
       (ClientMsg.hello (some "client") (some "R")))])

/-- The C3 counterexample trace: fill room `R` with 50 clients, then send a
`hello` whose role is the truthy non-standard string `"observer"`. -/
def c3trace : List (Nat × Event) :=
  (0, Event.createRoomEv "R") :: c3joinEvents ++
  [(0, Event.connect "evil" "ip" "ua"),
   (0, Event.message "evil" (ClientMsg.hello (some "observer") (some "R")))]

set_option maxRecDepth 100000 in
set_option maxHeartbeats 2000000 in
/-- Claim C3 counterexample.  The capacity check fires only when the request
role is literally `'client'`, while `addClient`'s else-branch admits every
non-`'controller'` role into the client map: after filling the room to the
cap of 50, a `hello` with role `"observer"` bypasses the check and brings
the client membership to 51 — the cap is exceeded. -/
theorem client_cap_exceeded_counterexample :
    ((alookup (runTrace initialState c3trace).1.rooms "R").map
      (fun r => r.clients.length) = some 51) ∧
    MAX_CLIENTS_PER_ROOM = 50 := by
  decide

/-- Claim C3 (corrected).  A `hello` with role exactly `'client'` to a room
at (or above) `MAX_CLIENTS_PER_ROOM` is answered with an `error` message
"Room is full" followed by a close and leaves the client set unchanged, and
`hello`s with role `'client'` never push the client membership past the cap;
the cap can however be exceeded by truthy roles other than `'client'` and
`'controller'` (see the counterexample). -/
theorem room_full_enforced_for_client_role :
    (∀ (s : ServerState) (sid codeStr : String) (sess : Session)
        (r : MetricsRoom) (now : Nat),
      codeStr ≠ "" →
      alookup s.sessions sid = some sess → sess.closed = none →
      sess.role = none → alookup s.rooms codeStr = some r →
      MAX_CLIENTS_PER_ROOM ≤ r.clients.length → sid ∉ r.clients →
      ((handleMessage s sid (ClientMsg.hello (some "client") (some codeStr))
          now).2 =
        [Effect.send sid (ServerMsg.errorMsg "Room is full"),
         Effect.closeSock sid "Room is full"]) ∧
      ((alookup (handleMessage s sid
          (ClientMsg.hello (some "client") (some codeStr)) now).1.rooms
          codeStr).map MetricsRoom.clients = some r.clients)) ∧
    (∀ (s : ServerState) (sid codeStr : String) (sess : Session)
        (r : MetricsRoom) (now : Nat),
      codeStr ≠ "" →
      alookup s.sessions sid = some sess → sess.closed = none →
      sess.role = none → sid ∉ r.clients →
      alookup s.rooms codeStr = some r →
      r.clients.length ≤ MAX_CLIENTS_PER_ROOM →
      ∀ r2, alookup (handleMessage s sid
          (ClientMsg.hello (some "client") (some codeStr)) now).1.rooms codeStr =
        some r2 →
      r2.clients.length ≤ MAX_CLIENTS_PER_ROOM) := by
  constructor
  · intro s sid codeStr sess r now hcode hsess hopen hrole hroom hfull hnotmem
    have h := handleHello_room_full s sid codeStr sess r now hcode hsess hopen
      hrole hroom hfull hnotmem
    exact ⟨h.1, h.2⟩
  · intro s sid codeStr sess r now hcode hsess hopen hrole hnotmem hroom hle r2 hr2
    by_cases hfull : MAX_CLIENTS_PER_ROOM ≤ r.clients.length
    · have h := (handleHello_room_full s sid codeStr sess r now hcode hsess hopen
        hrole hroom hfull hnotmem).2
      have hmm : (handleMessage s sid
          (ClientMsg.hello (some "client") (some codeStr)) now) =
          (handleHello s sid (some "client") (some codeStr) now) := rfl
      rw [hmm] at hr2
      rw [hr2] at h
      have hcc : r2.clients = r.clients := by
        simpa using h
      rw [hcc]
      exact hle
    · have hacc := handleHello_accepts s sid "client" codeStr sess r now
        (by decide) hcode hsess hroom (fun h => hfull h.2)
      have hmm : (handleMessage s sid
          (ClientMsg.hello (some "client") (some codeStr)) now) =
          (handleHello s sid (some "client") (some codeStr) now) := rfl
      rw [hmm, hacc] at hr2
      rw [alookup_aset_self] at hr2
      have hr2e : r2 = (r.addClient sid "client" now).1 := by
        injection hr2 with h
        exact h.symm
      have hcl : (r.addClient sid "client" now).1.clients =
          mapSetKey r.clients sid := by
        simp [MetricsRoom.addClient]
      rw [hr2e, hcl]
      have hlen := mapSetKey_length r.clients sid
      have : r.clients.length + 1 ≤ MAX_CLIENTS_PER_ROOM := by
        unfold MAX_CLIENTS_PER_ROOM at hfull ⊢
        omega
      omega

/-- The 50 client ids filling the witness room. -/
def fiftyClients : List String := (List.range 50).map (fun i => "c" ++ toString i)

/-- Witness for the amended C3: a room at the cap rejects the `'client'`
hello with "Room is full", membership unchanged; and in a one-client room a
client hello keeps membership within the cap. -/
theorem room_full_enforced_for_client_role_witness :
    (((handleMessage
        { rooms := [("R", { roomNew "R" 0 with clients := fiftyClients })]
          sessions := [("evil", { ip := "i", userAgent := "u", role := none
                                  wsRoom := none, closed := none })]
          timers := [] } "evil"
        (ClientMsg.hello (some "client") (some "R")) 2).2 =
      [Effect.send "evil" (ServerMsg.errorMsg "Room is full"),
       Effect.closeSock "evil" "Room is full"]) ∧
     ((alookup (handleMessage
        { rooms := [("R", { roomNew "R" 0 with clients := fiftyClients })]
          sessions := [("evil", { ip := "i", userAgent := "u", role := none
                                  wsRoom := none, closed := none })]
          timers := [] } "evil"
        (ClientMsg.hello (some "client") (some "R")) 2).1.rooms "R").map
        MetricsRoom.clients = some fiftyClients)) ∧
    (∀ r2, alookup (handleMessage
        { rooms := [("R", { roomNew "R" 0 with clients := ["a"] })]
          sessions := [("b", { ip := "i", userAgent := "u", role := none
                               wsRoom := none, closed := none })]
          timers := [] } "b"
        (ClientMsg.hello (some "client") (some "R")) 2).1.rooms "R" = some r2 →
      r2.clients.length ≤ MAX_CLIENTS_PER_ROOM) :=
  ⟨room_full_enforced_for_client_role.1
      { rooms := [("R", { roomNew "R" 0 with clients := fiftyClients })]
        sessions := [("evil", { ip := "i", userAgent := "u", role := none
                                wsRoom := none, closed := none })]
        timers := [] } "evil" "R"
      { ip := "i", userAgent := "u", role := none, wsRoom := none, closed := none }
      ({ roomNew "R" 0 with clients := fiftyClients }) 2
      (by decide) rfl rfl rfl (by decide) (by decide) (by decide),
   room_full_enforced_for_client_role.2
      { rooms := [("R", { roomNew "R" 0 with clients := ["a"] })]
        sessions := [("b", { ip := "i", userAgent := "u", role := none
                             wsRoom := none, closed := none })]
        timers := [] } "b" "R"
      { ip := "i", userAgent := "u", role := none, wsRoom := none, closed := none }
      ({ roomNew "R" 0 with clients := ["a"] }) 2
      (by decide) rfl rfl rfl (by decide) (by decide) (by decide)⟩

/-! ### C8 development: auth-timeout and membership safety -/

def isHelloFromB (sid : String) : Event → Bool
  | Event.message sid2 (ClientMsg.hello _ _) => sid2 = sid
  | _ => false

def isSocketCloseB (sid : String) : Event → Bool
  | Event.socketClose sid2 => sid2 = sid
  | _ => false

/-- The session `sid` is a member of room `r` (controller slot or client
set). -/
def roomHas (r : MetricsRoom) (sid : String) : Prop :=
  r.controller = some sid ∨ sid ∈ r.clients

instance (r : MetricsRoom) (sid : String) : Decidable (roomHas r sid) := by
  unfold roomHas
  infer_instance

/-- The session `sid` appears in some room of the registry list. -/
def roomsHaveMember (l : List (String × MetricsRoom)) (sid : String) : Prop :=
  ∃ p ∈ l, roomHas p.2 sid

instance (l : List (String × MetricsRoom)) (sid : String) :
    Decidable (roomsHaveMember l sid) := by
  unfold roomsHaveMember
  infer_instance

def memberOf (s : ServerState) (sid : String) : Prop :=
  roomsHaveMember s.rooms sid

instance (s : ServerState) (sid : String) : Decidable (memberOf s sid) := by
  unfold memberOf
  infer_instance

/-- The session `sid` is live, unauthenticated (its handler closure's `room`
is unset) and not closed. -/
def sessionOpenNoRoom (s : ServerState) (sid : String) : Prop :=
  ∃ sess, alookup s.sessions sid = some sess ∧ sess.wsRoom = none ∧
    sess.closed = none

/-- The authentication timer for `sid` with deadline `T` is pending and the
session is still open and unauthenticated. -/
def authArmed (s : ServerState) (sid : String) (T : Nat) : Prop :=
  Timer.authTimer sid T ∈ s.timers ∧ sessionOpenNoRoom s sid

theorem alookup_mem {β : Type} (l : List (String × β)) (k : String) (v : β)
    (h : alookup l k = some v) : (k, v) ∈ l := by
  induction l with
  | nil => simp [alookup] at h
  | cons hd t ih =>
    obtain ⟨k2, v2⟩ := hd
    by_cases hk : k2 = k
    · subst hk
      simp only [alookup, eq_self_iff_true, if_true, Option.some_inj] at h
      subst h
      exact List.mem_cons_self _ _
    · simp only [alookup, hk, if_false] at h
      exact List.mem_cons_of_mem _ (ih h)

theorem roomHas_removeClient (r : MetricsRoom) (cid role : String) (now : Nat)
    (x : String) (h : roomHas ((r.removeClient cid role now).1) x) :
    roomHas r x := by
  unfold MetricsRoom.removeClient at h
  by_cases hr : role = "controller"
  · simp only [hr, eq_self_iff_true, if_true] at h
    rcases h with h | h
    · exact absurd h (by simp [roomHas])
    · exact Or.inr h
  · simp only [hr, if_false] at h
    rcases h with h | h
    · exact Or.inl h
    · exact Or.inr (List.mem_of_mem_erase h)

theorem roomHas_addClient (r : MetricsRoom) (cid role : String) (now : Nat)
    (x : String) (h : roomHas ((r.addClient cid role now).1) x) :
    roomHas r x ∨ x = cid := by
  unfold MetricsRoom.addClient at h
  by_cases hr : role = "controller"
  · simp only [hr, eq_self_iff_true, if_true] at h
    rcases h with h | h
    · simp only [Option.some_inj] at h
      exact Or.inr h.symm
    · exact Or.inl (Or.inr h)
  · simp only [hr, if_false] at h
    rcases h with h | h
    · exact Or.inl (Or.inl h)
    · rcases mapSetKey_mem r.clients cid x h with h2 | h2
      · exact Or.inl (Or.inr h2)
      · exact Or.inr h2

theorem roomHas_addMetrics (r : MetricsRoom) (cid : String) (m : Payload)
    (now : Nat) (x : String) (h : roomHas ((r.addMetrics cid m now).1) x) :
    roomHas r x := h

theorem roomsHaveMember_aset (l : List (String × MetricsRoom)) (k : String)
    (v : MetricsRoom) (x : String) (h : roomsHaveMember (aset l k v) x) :
    roomsHaveMember l x ∨ roomHas v x := by
  obtain ⟨p, hp, hhas⟩ := h
  rcases mem_aset l k v p hp with h1 | h1
  · exact Or.inl ⟨p, h1, hhas⟩
  · subst h1
    exact Or.inr hhas

theorem roomsHaveMember_adel (l : List (String × MetricsRoom)) (k : String)
    (x : String) (h : roomsHaveMember (adel l k) x) : roomsHaveMember l x := by
  obtain ⟨p, hp, hhas⟩ := h
  exact ⟨p, mem_adel l k p hp, hhas⟩

theorem roomsHaveMember_of_alookup (l : List (String × MetricsRoom))
    (k : String) (r : MetricsRoom) (x : String)
    (hr : alookup l k = some r) (hhas : roomHas r x) : roomsHaveMember l x :=
  ⟨(k, r), alookup_mem l k r hr, hhas⟩

/-! Membership can only be created by a `hello` from the very session that
becomes the member; every other handler either leaves room membership alone
or shrinks it.  The following lemmas push that fact through each handler. -/

theorem runCloseHandler_no_new_member (s : ServerState) (sid : String)
    (now : Nat) (x : String) (hnm : ¬ memberOf s x) :
    ¬ memberOf (runCloseHandler s sid now).1 x := by
  intro hmem
  unfold runCloseHandler at hmem
  split at hmem
  · exact hnm hmem
  · rename_i sess _
    split at hmem
    · exact hnm hmem
    · rename_i rc _
      split at hmem
      · exact hnm hmem
      · rename_i r heq
        simp only at hmem
        rcases roomsHaveMember_aset s.rooms rc
            (r.removeClient sid (sess.role.getD "") now).1 x hmem with h1 | h1
        · exact hnm h1
        · exact hnm (roomsHaveMember_of_alookup s.rooms rc r x heq
            (roomHas_removeClient r sid (sess.role.getD "") now x h1))

theorem closeSession_no_new_member (s : ServerState) (sid reason : String)
    (b : Bool) (now : Nat) (x : String) (hnm : ¬ memberOf s x) :
    ¬ memberOf (closeSession s sid reason b now).1 x := by
  intro hmem
  unfold closeSession at hmem
  split at hmem
  · exact hnm hmem
  · split at hmem
    · exact hnm hmem
    · rename_i sess _ _
      have h2 := runCloseHandler_no_new_member
        { s with sessions := aset s.sessions sid { sess with closed := some reason } }
        sid now x hnm
      exact absurd (by simpa using hmem) h2

theorem fireTimer_no_new_member (s : ServerState) (tm : Timer) (now : Nat)
    (x : String) (hnm : ¬ memberOf s x) :
    ¬ memberOf (fireTimer s tm now).1 x := by
  intro hmem
  unfold fireTimer at hmem
  cases tm with
  | authTimer sid fa =>
    simp only at hmem
    split at hmem
    · exact hnm hmem
    · split at hmem
      · exact closeSession_no_new_member s sid "Authentication timeout" true now
          x hnm hmem
      · exact hnm hmem
  | deleteTimer rc fa =>
    simp only at hmem
    split at hmem
    · exact hnm hmem
    · split at hmem
      · exact hnm (roomsHaveMember_adel s.rooms rc x hmem)
      · exact hnm hmem

theorem fireTimers_no_new_member (due : List Timer) (s : ServerState)
    (now : Nat) (x : String) (hnm : ¬ memberOf s x) :
    ¬ memberOf (fireTimers s due now).1 x := by
  induction due generalizing s with
  | nil => exact fun hmem => hnm hmem
  | cons tm rest ih =>
    intro hmem
    unfold fireTimers at hmem
    rcases hft : fireTimer s tm now with ⟨s1, e1⟩
    rw [hft] at hmem
    simp only at hmem
    rcases hfts : fireTimers s1 rest now with ⟨s2, e2⟩
    rw [hfts] at hmem
    simp only at hmem
    have h1 : ¬ memberOf s1 x := by
      have h0 := fireTimer_no_new_member s tm now x hnm
      rw [hft] at h0
      exact h0
    have h2 := ih s1 h1
    rw [hfts] at h2
    exact h2 hmem

theorem fireDueTimers_no_new_member (s : ServerState) (t : Nat) (x : String)
    (hnm : ¬ memberOf s x) : ¬ memberOf (fireDueTimers s t).1 x := by
  unfold fireDueTimers
  exact fireTimers_no_new_member _ _ t x hnm

theorem handleHello_no_new_member (s : ServerState) (sid2 : String)
    (role code : Option String) (now : Nat) (x : String)
    (hne : sid2 ≠ x) (hnm : ¬ memberOf s x) :
    ¬ memberOf (handleHello s sid2 role code now).1 x := by
  intro hmem
  unfold handleHello at hmem
  simp only at hmem
  split at hmem
  · exact closeSession_no_new_member
      { rooms := s.rooms, sessions := s.sessions,
        timers := s.timers.filter (fun t => !isAuthTimerFor sid2 t) }
      sid2 "Invalid authentication" true now x hnm hmem
  · split at hmem
    · rcases hcs : closeSession
          { s with timers := s.timers.filter (fun t => !isAuthTimerFor sid2 t) }
          sid2 "Invalid room code" true now with ⟨s1, e1⟩
      rw [hcs] at hmem
      simp only at hmem
      have h0 := closeSession_no_new_member
        { s with timers := s.timers.filter (fun t => !isAuthTimerFor sid2 t) }
        sid2 "Invalid room code" true now x hnm
      rw [hcs] at h0
      exact h0 hmem
    · rename_i r hlook
      split at hmem
      · exact hnm hmem
      · rename_i sess hsesslook
        split at hmem
        · rcases hcs : closeSession
              { s with
                timers := s.timers.filter (fun t => !isAuthTimerFor sid2 t)
                sessions := aset s.sessions sid2 { sess with wsRoom := some ((code).getD "") } }
              sid2 "Room is full" true now with ⟨s1, e1⟩
          rw [hcs] at hmem
          simp only at hmem
          have h0 := closeSession_no_new_member
            { s with
              timers := s.timers.filter (fun t => !isAuthTimerFor sid2 t)
              sessions := aset s.sessions sid2 { sess with wsRoom := some ((code).getD "") } }
            sid2 "Room is full" true now x hnm
          rw [hcs] at h0
          exact h0 hmem
        · rcases hac : r.addClient sid2 ((role).getD "") now with ⟨r1, wsRole, effs⟩
          rw [hac] at hmem
          simp only at hmem
          rcases roomsHaveMember_aset s.rooms ((code).getD "") r1 x hmem with h1 | h1
          · exact hnm h1
          · have h2 : roomHas ((r.addClient sid2 ((role).getD "") now).1) x := by
              rw [hac]
              exact h1
            rcases roomHas_addClient r sid2 ((role).getD "") now x h2 with h3 | h3
            · exact hnm (roomsHaveMember_of_alookup s.rooms ((code).getD "") r x
                hlook h3)
            · exact hne h3.symm

theorem handleMessage_no_new_member (s : ServerState) (sid2 : String)
    (m : ClientMsg) (now : Nat) (x : String)
    (hne : ∀ role code, m = ClientMsg.hello role code → sid2 ≠ x)
    (hnm : ¬ memberOf s x) :
    ¬ memberOf (handleMessage s sid2 m now).1 x := by
  cases m with
  | hello role code =>
    exact handleHello_no_new_member s sid2 role code now x (hne role code rfl) hnm
  | metricsIn payload =>
    intro hmem
    unfold handleMessage at hmem
    simp only at hmem
    split at hmem
    · exact hnm hmem
    · rename_i sess hsess
      split at hmem
      · rename_i rc p hm
        split at hmem
        · split at hmem
          · rename_i r hlook
            rcases hadd : r.addMetrics sid2
                { p with ip := some sess.ip,
                         userAgent := some (uaOrUnknown sess.userAgent) } now
              with ⟨r1, effs⟩
            rw [hadd] at hmem
            simp only at hmem
            rcases roomsHaveMember_aset s.rooms rc r1 x hmem with h1 | h1
            · exact hnm h1
            · have h2 : roomHas ((r.addMetrics sid2
                  { p with ip := some sess.ip,
                           userAgent := some (uaOrUnknown sess.userAgent) }
                  now).1) x := by
                rw [hadd]
                exact h1
              exact hnm (roomsHaveMember_of_alookup s.rooms rc r x hlook
                (roomHas_addMetrics _ _ _ _ _ h2))
          · exact hnm hmem
        · exact hnm hmem
      · exact hnm hmem
  | roomSettings settings =>
    intro hmem
    unfold handleMessage at hmem
    simp only at hmem
    split at hmem
    · exact hnm hmem
    · rename_i sess hsess
      split at hmem
      · rename_i rc p hm
        split at hmem
        · split at hmem
          · rename_i r hlook
            simp only at hmem
            rcases roomsHaveMember_aset s.rooms rc
                { r with settings := mergeSettings r.settings p } x hmem with h1 | h1
            · exact hnm h1
            · exact hnm (roomsHaveMember_of_alookup s.rooms rc r x hlook h1)
          · exact hnm hmem
        · exact hnm hmem
      · exact hnm hmem
  | ping => exact fun hmem => hnm hmem
  | other => exact fun hmem => hnm hmem

theorem handleEvent_no_new_member (s : ServerState) (now : Nat) (e : Event)
    (x : String) (hhello : isHelloFromB x e = false) (hnm : ¬ memberOf s x) :
    ¬ memberOf (handleEvent s now e).1 x := by
  cases e with
  | createRoomEv code =>
    intro hmem
    unfold handleEvent createRoom at hmem
    simp only at hmem
    rcases roomsHaveMember_aset s.rooms code (roomNew code now) x hmem with h1 | h1
    · exact hnm h1
    · simp [roomHas, roomNew] at h1
  | connect sid2 ip ua => exact fun hmem => hnm hmem
  | message sid2 m =>
    refine handleMessage_no_new_member s sid2 m now x ?_ hnm
    intro role code hm
    subst hm
    simpa [isHelloFromB] using hhello
  | socketClose sid2 =>
    exact closeSession_no_new_member s sid2 "socket closed" false now x hnm

theorem stepTimed_no_new_member (s : ServerState) (te : Nat × Event)
    (x : String) (hhello : isHelloFromB x te.2 = false) (hnm : ¬ memberOf s x) :
    ¬ memberOf (stepTimed s te).1 x := by
  intro hmem
  unfold stepTimed at hmem
  rcases hfd : fireDueTimers s te.1 with ⟨s1, e1⟩
  rw [hfd] at hmem
  simp only at hmem
  have h1 : ¬ memberOf s1 x := by
    have h0 := fireDueTimers_no_new_member s te.1 x hnm
    rw [hfd] at h0
    exact h0
  exact handleEvent_no_new_member s1 te.1 te.2 x hhello h1 hmem

theorem runTrace_no_new_member (p : List (Nat × Event)) (s : ServerState)
    (x : String) (hhello : ∀ te ∈ p, isHelloFromB x te.2 = false)
    (hnm : ¬ memberOf s x) : ¬ memberOf (runTrace s p).1 x := by
  induction p generalizing s with
  | nil => exact fun hmem => hnm hmem
  | cons te rest ih =>
    intro hmem
    unfold runTrace at hmem
    rcases hst : stepTimed s te with ⟨s1, e1⟩
    rw [hst] at hmem
    simp only at hmem
    rcases hrt : runTrace s1 rest with ⟨s2, e2⟩
    rw [hrt] at hmem
    simp only at hmem
    have h1 : ¬ memberOf s1 x := by
      have h0 := stepTimed_no_new_member s te x (hhello te (List.mem_cons_self _ _))
        hnm
      rw [hst] at h0
      exact h0
    have h2 := ih s1 (fun te2 hte2 => hhello te2 (List.mem_cons_of_mem _ hte2)) h1
    rw [hrt] at h2
    exact h2 hmem

/-! The auth-timeout invariant: while a session has sent no `hello` and its
socket has not closed, its authentication timer stays pending and the
session stays open with no room attached; when the timer fires it closes
the socket with reason "Authentication timeout". -/

theorem authTimer_survives_filter (l : List Timer) (sid sid2 : String) (T : Nat)
    (hne : sid2 ≠ sid) (h : Timer.authTimer sid T ∈ l) :
    Timer.authTimer sid T ∈ l.filter (fun t => !isAuthTimerFor sid2 t) := by
  refine List.mem_filter.mpr ⟨h, ?_⟩
  simp [isAuthTimerFor]
  exact fun he => hne he.symm

theorem runCloseHandler_sessions (s : ServerState) (sid2 : String) (now : Nat) :
    (runCloseHandler s sid2 now).1.sessions = s.sessions := by
  unfold runCloseHandler
  split
  · rfl
  · split
    · rfl
    · split
      · rfl
      · rfl

theorem runCloseHandler_timer_other (s : ServerState) (sid2 : String)
    (now : Nat) (sid : String) (T : Nat) (hne : sid2 ≠ sid)
    (h : Timer.authTimer sid T ∈ s.timers) :
    Timer.authTimer sid T ∈ (runCloseHandler s sid2 now).1.timers := by
  have h1 := authTimer_survives_filter s.timers sid sid2 T hne h
  unfold runCloseHandler
  split
  · exact h1
  · split
    · exact h1
    · split
      · exact h1
      · simp only
        split
        · exact List.mem_append_left _ h1
        · exact h1

theorem closeSession_other (s : ServerState) (sid2 reason : String) (b : Bool)
    (now : Nat) (sid : String) (hne : sid2 ≠ sid)
    (hs : sessionOpenNoRoom s sid) :
    sessionOpenNoRoom (closeSession s sid2 reason b now).1 sid ∧
    (∀ T, Timer.authTimer sid T ∈ s.timers →
      Timer.authTimer sid T ∈ (closeSession s sid2 reason b now).1.timers) := by
  obtain ⟨sess, hsess, hwr, hcl⟩ := hs
  unfold closeSession
  split
  · exact ⟨⟨sess, hsess, hwr, hcl⟩, fun T h => h⟩
  · rename_i sess2 _
    split
    · exact ⟨⟨sess, hsess, hwr, hcl⟩, fun T h => h⟩
    · rcases hrc : runCloseHandler
          { s with sessions := aset s.sessions sid2 { sess2 with closed := some reason } }
          sid2 now with ⟨s2, e2⟩
      simp only [hrc]
      constructor
      · refine ⟨sess, ?_, hwr, hcl⟩
        have hse := runCloseHandler_sessions
          { s with sessions := aset s.sessions sid2 { sess2 with closed := some reason } }
          sid2 now
        rw [hrc] at hse
        simp only at hse
        rw [hse]
        rw [alookup_aset_ne _ _ _ _ (fun he => hne he.symm)]
        exact hsess
      · intro T hT
        have h2 := runCloseHandler_timer_other
          { s with sessions := aset s.sessions sid2 { sess2 with closed := some reason } }
          sid2 now sid T hne hT
        rw [hrc] at h2
        exact h2

theorem handleHello_preserves_armed (s : ServerState) (sid2 : String)
    (role code : Option String) (now : Nat) (sid : String) (T : Nat)
    (hne : sid2 ≠ sid) (h : authArmed s sid T) :
    authArmed (handleHello s sid2 role code now).1 sid T := by
  obtain ⟨htimer, hs⟩ := h
  have htimer1 := authTimer_survives_filter s.timers sid sid2 T hne htimer
  have h0 : authArmed
      { s with timers := s.timers.filter (fun t => !isAuthTimerFor sid2 t) }
      sid T := ⟨htimer1, hs⟩
  unfold handleHello
  simp only
  split
  · have hc := closeSession_other
      { s with timers := s.timers.filter (fun t => !isAuthTimerFor sid2 t) }
      sid2 "Invalid authentication" true now sid hne h0.2
    exact ⟨hc.2 T htimer1, hc.1⟩
  · split
    · rcases hcs : closeSession
          { s with timers := s.timers.filter (fun t => !isAuthTimerFor sid2 t) }
          sid2 "Invalid room code" true now with ⟨s1, e1⟩
      simp only
      have hc := closeSession_other
        { s with timers := s.timers.filter (fun t => !isAuthTimerFor sid2 t) }
        sid2 "Invalid room code" true now sid hne h0.2
      rw [hcs] at hc
      exact ⟨hc.2 T htimer1, hc.1⟩
    · rename_i r hlook
      split
      · exact h0
      · rename_i sess hsesslook
        split
        · rcases hcs : closeSession
              { s with
                timers := s.timers.filter (fun t => !isAuthTimerFor sid2 t)
                sessions := aset s.sessions sid2
                  { sess with wsRoom := some ((code).getD "") } }
              sid2 "Room is full" true now with ⟨s1, e1⟩
          simp only
          have harm1 : sessionOpenNoRoom
              { s with
                timers := s.timers.filter (fun t => !isAuthTimerFor sid2 t)
                sessions := aset s.sessions sid2
                  { sess with wsRoom := some ((code).getD "") } } sid := by
            obtain ⟨sx, hsx, hwr, hcl⟩ := hs
            refine ⟨sx, ?_, hwr, hcl⟩
            simpa [alookup_aset_ne _ _ _ _ (fun he => hne he.symm)] using hsx
          have hc := closeSession_other
            { s with
              timers := s.timers.filter (fun t => !isAuthTimerFor sid2 t)
              sessions := aset s.sessions sid2
                { sess with wsRoom := some ((code).getD "") } }
            sid2 "Room is full" true now sid hne harm1
          rw [hcs] at hc
          exact ⟨hc.2 T htimer1, hc.1⟩
        · rcases hac : r.addClient sid2 ((role).getD "") now with ⟨r1, wsRole, effs⟩
          simp only
          refine ⟨htimer1, ?_⟩
          obtain ⟨sx, hsx, hwr, hcl⟩ := hs
          refine ⟨sx, ?_, hwr, hcl⟩
          rw [alookup_aset_ne _ _ _ _ (fun he => hne he.symm)]
          simpa [alookup_aset_ne _ _ _ _ (fun he => hne he.symm)] using hsx

theorem handleMessage_preserves_armed (s : ServerState) (sid2 : String)
    (m : ClientMsg) (now : Nat) (sid : String) (T : Nat)
    (hne : ∀ role code, m = ClientMsg.hello role code → sid2 ≠ sid)
    (h : authArmed s sid T) :
    authArmed (handleMessage s sid2 m now).1 sid T := by
  cases m with
  | hello role code =>
    exact handleHello_preserves_armed s sid2 role code now sid T (hne role code rfl) h
  | metricsIn payload =>
    unfold handleMessage
    simp only
    split
    · exact h
    · split
      · split
        · split
          · rename_i r _
            rcases hadd : r.addMetrics sid2 _ now with ⟨r1, effs⟩
            exact h
          · exact h
        · exact h
      · exact h
  | roomSettings settings =>
    unfold handleMessage
    simp only
    split
    · exact h
    · split
      · split
        · split
          · exact h
          · exact h
        · exact h
      · exact h
  | ping => exact h
  | other => exact h

theorem handleEvent_preserves_armed (s : ServerState) (now : Nat) (e : Event)
    (sid : String) (T : Nat)
    (hhello : isHelloFromB sid e = false)
    (hclose : isSocketCloseB sid e = false)
    (h : authArmed s sid T) :
    authArmed (handleEvent s now e).1 sid T := by
  cases e with
  | createRoomEv code => exact h
  | connect sid2 ip ua =>
    obtain ⟨htimer, hs⟩ := h
    unfold handleEvent
    simp only
    refine ⟨List.mem_append_left _ htimer, ?_⟩
    by_cases hx : sid2 = sid
    · subst hx
      exact ⟨_, alookup_aset_self _ _ _, rfl, rfl⟩
    · obtain ⟨sx, hsx, hwr, hcl⟩ := hs
      refine ⟨sx, ?_, hwr, hcl⟩
      rw [alookup_aset_ne _ _ _ _ (fun he => hx he.symm)]
      exact hsx
  | message sid2 m =>
    refine handleMessage_preserves_armed s sid2 m now sid T ?_ h
    intro role code hm
    subst hm
    simpa [isHelloFromB] using hhello
  | socketClose sid2 =>
    have hne : sid2 ≠ sid := by simpa [isSocketCloseB] using hclose
    have hc := closeSession_other s sid2 "socket closed" false now sid hne h.2
    exact ⟨hc.2 T h.1, hc.1⟩

theorem fireTimer_fires_ours (s : ServerState) (sid : String) (fa now : Nat)
    (hs : sessionOpenNoRoom s sid) :
    Effect.closeSock sid "Authentication timeout" ∈
      (fireTimer s (Timer.authTimer sid fa) now).2 := by
  obtain ⟨sess, hsess, hwr, hcl⟩ := hs
  unfold fireTimer closeSession
  simp only [hsess, hwr, hcl, eq_self_iff_true, if_true, Option.isSome_none,
    Bool.false_eq_true, if_false]
  rcases hrc : runCloseHandler
      { s with sessions := aset s.sessions sid { sess with closed := some "Authentication timeout" } }
      sid now with ⟨s2, e2⟩
  simp only [List.singleton_append]
  exact List.mem_cons_self _ _

theorem fireTimer_dichotomy (s : ServerState) (tm : Timer) (now : Nat)
    (sid : String) (hs : sessionOpenNoRoom s sid) :
    (Effect.closeSock sid "Authentication timeout" ∈ (fireTimer s tm now).2) ∨
    (sessionOpenNoRoom (fireTimer s tm now).1 sid ∧
     ∀ T, Timer.authTimer sid T ∈ s.timers →
       Timer.authTimer sid T ∈ (fireTimer s tm now).1.timers) := by
  cases tm with
  | authTimer sid2 fa =>
    by_cases hx : sid2 = sid
    · subst hx
      exact Or.inl (fireTimer_fires_ours s sid2 fa now hs)
    · unfold fireTimer
      cases hlook : alookup s.sessions sid2 with
      | none =>
        simp only [hlook]
        exact Or.inr ⟨hs, fun T h => h⟩
      | some sess2 =>
        simp only [hlook]
        by_cases hwr2 : sess2.wsRoom = none
        · rw [if_pos hwr2]
          have hc := closeSession_other s sid2 "Authentication timeout" true now
            sid hx hs
          exact Or.inr ⟨hc.1, hc.2⟩
        · rw [if_neg hwr2]
          exact Or.inr ⟨hs, fun T h => h⟩
  | deleteTimer rc fa =>
    refine Or.inr ?_
    unfold fireTimer
    cases hlook : alookup s.rooms rc with
    | none =>
      simp only [hlook]
      exact ⟨hs, fun T h => h⟩
    | some r =>
      simp only [hlook]
      by_cases hempty : r.clients.length = 0 ∧ r.controller = none
      · rw [if_pos hempty]
        exact ⟨hs, fun T h => h⟩
      · rw [if_neg hempty]
        exact ⟨hs, fun T h => h⟩

theorem fireTimers_fires (due : List Timer) (s : ServerState) (now : Nat)
    (sid : String) (T : Nat) (hs : sessionOpenNoRoom s sid)
    (hmem : Timer.authTimer sid T ∈ due) :
    Effect.closeSock sid "Authentication timeout" ∈ (fireTimers s due now).2 := by
  induction due generalizing s with
  | nil => simp at hmem
  | cons tm rest ih =>
    unfold fireTimers
    rcases hft : fireTimer s tm now with ⟨s1, e1⟩
    simp only
    rcases hfts : fireTimers s1 rest now with ⟨s2, e2⟩
    simp only
    rcases List.mem_cons.mp hmem with hhead | htail
    · have h1 := fireTimer_fires_ours s sid T now hs
      rw [hhead, hft] at h1
      exact List.mem_append_left _ h1
    · rcases fireTimer_dichotomy s tm now sid hs with h1 | ⟨hs1, _⟩
      · rw [hft] at h1
        exact List.mem_append_left _ h1
      · rw [hft] at hs1
        have h2 := ih s1 hs1 htail
        rw [hfts] at h2
        exact List.mem_append_right _ h2

theorem fireTimers_dichotomy (due : List Timer) (s : ServerState) (now : Nat)
    (sid : String) (hs : sessionOpenNoRoom s sid) :
    (Effect.closeSock sid "Authentication timeout" ∈ (fireTimers s due now).2) ∨
    (sessionOpenNoRoom (fireTimers s due now).1 sid ∧
     ∀ T, Timer.authTimer sid T ∈ s.timers →
       Timer.authTimer sid T ∈ (fireTimers s due now).1.timers) := by
  induction due generalizing s with
  | nil => exact Or.inr ⟨hs, fun T h => h⟩
  | cons tm rest ih =>
    unfold fireTimers
    rcases hft : fireTimer s tm now with ⟨s1, e1⟩
    simp only
    rcases hfts : fireTimers s1 rest now with ⟨s2, e2⟩
    simp only
    rcases fireTimer_dichotomy s tm now sid hs with h1 | ⟨hs1, htr1⟩
    · rw [hft] at h1
      exact Or.inl (List.mem_append_left _ h1)
    · rw [hft] at hs1 htr1
      rcases ih s1 hs1 with h2 | ⟨hs2, htr2⟩
      · rw [hfts] at h2
        exact Or.inl (List.mem_append_right _ h2)
      · rw [hfts] at hs2 htr2
        exact Or.inr ⟨hs2, fun T h => htr2 T (htr1 T h)⟩

theorem fireDueTimers_dichotomy (s : ServerState) (t : Nat) (sid : String)
    (T : Nat) (h : authArmed s sid T) :
    (Effect.closeSock sid "Authentication timeout" ∈ (fireDueTimers s t).2) ∨
    (authArmed (fireDueTimers s t).1 sid T ∧ t < T) := by
  obtain ⟨htimer, hs⟩ := h
  unfold fireDueTimers
  simp only
  by_cases hd : T ≤ t
  · refine Or.inl (fireTimers_fires _ _ t sid T hs ?_)
    refine List.mem_filter.mpr ⟨htimer, ?_⟩
    simp [timerFireAt, hd]
  · have hrest : Timer.authTimer sid T ∈
        s.timers.filter (fun tm => !decide (timerFireAt tm ≤ t)) := by
      refine List.mem_filter.mpr ⟨htimer, ?_⟩
      simp [timerFireAt]
      omega
    rcases fireTimers_dichotomy (s.timers.filter (fun tm => decide (timerFireAt tm ≤ t)))
        { s with timers := s.timers.filter (fun tm => !decide (timerFireAt tm ≤ t)) }
        t sid hs with h1 | ⟨hs2, htr⟩
    · exact Or.inl h1
    · exact Or.inr ⟨⟨htr T hrest, hs2⟩, by omega⟩

theorem stepTimed_dichotomy (s : ServerState) (te : Nat × Event) (sid : String)
    (T : Nat) (h : authArmed s sid T)
    (hhello : isHelloFromB sid te.2 = false)
    (hclose : isSocketCloseB sid te.2 = false) :
    (Effect.closeSock sid "Authentication timeout" ∈ (stepTimed s te).2) ∨
    authArmed (stepTimed s te).1 sid T := by
  unfold stepTimed
  rcases hfd : fireDueTimers s te.1 with ⟨s1, e1⟩
  simp only
  rcases hhe : handleEvent s1 te.1 te.2 with ⟨s2, e2⟩
  simp only
  rcases fireDueTimers_dichotomy s te.1 sid T h with h1 | ⟨h2, _⟩
  · rw [hfd] at h1
    exact Or.inl (List.mem_append_left _ h1)
  · rw [hfd] at h2
    have h3 := handleEvent_preserves_armed s1 te.1 te.2 sid T hhello hclose h2
    rw [hhe] at h3
    exact Or.inr h3

theorem runTrace_cons_state (s : ServerState) (te : Nat × Event)
    (rest : List (Nat × Event)) :
    (runTrace s (te :: rest)).1 = (runTrace (stepTimed s te).1 rest).1 := by
  rcases hst : stepTimed s te with ⟨s1, e1⟩
  rcases hrt : runTrace s1 rest with ⟨s2, e2⟩
  rw [runTrace, hst]
  simp only
  rw [hrt]

theorem runTraceUntil_nil_effects (s : ServerState) (tEnd : Nat) :
    (runTraceUntil s [] tEnd).2 = (fireDueTimers s tEnd).2 := by
  rcases hfd : fireDueTimers s tEnd with ⟨s1, e1⟩
  unfold runTraceUntil
  rw [runTrace]
  simp only
  rw [hfd]
  simp

theorem runTraceUntil_cons_effects (s : ServerState) (te : Nat × Event)
    (rest : List (Nat × Event)) (tEnd : Nat) :
    (runTraceUntil s (te :: rest) tEnd).2 =
      (stepTimed s te).2 ++ (runTraceUntil (stepTimed s te).1 rest tEnd).2 := by
  rcases hst : stepTimed s te with ⟨s1, e1⟩
  rcases hrt : runTrace s1 rest with ⟨s2, e2⟩
  rcases hfd : fireDueTimers s2 tEnd with ⟨s3, e3⟩
  unfold runTraceUntil
  rw [runTrace, hst]
  simp only
  rw [hrt]
  simp only
  rw [hfd]
  simp only [List.append_assoc]

theorem runTraceUntil_fires (es : List (Nat × Event)) (s : ServerState)
    (sid : String) (T tEnd : Nat) (h : authArmed s sid T)
    (hh : ∀ te ∈ es, isHelloFromB sid te.2 = false)
    (hc : ∀ te ∈ es, isSocketCloseB sid te.2 = false)
    (hT : T ≤ tEnd) :
    Effect.closeSock sid "Authentication timeout" ∈
      (runTraceUntil s es tEnd).2 := by
  induction es generalizing s with
  | nil =>
    rw [runTraceUntil_nil_effects]
    rcases fireDueTimers_dichotomy s tEnd sid T h with h1 | ⟨_, hlt⟩
    · exact h1
    · omega
  | cons te rest ih =>
    rw [runTraceUntil_cons_effects]
    rcases stepTimed_dichotomy s te sid T h (hh te (List.mem_cons_self _ _))
        (hc te (List.mem_cons_self _ _)) with h1 | h2
    · exact List.mem_append_left _ h1
    · exact List.mem_append_right _
        (ih (stepTimed s te).1 h2
          (fun te2 ht => hh te2 (List.mem_cons_of_mem _ ht))
          (fun te2 ht => hc te2 (List.mem_cons_of_mem _ ht)))

theorem runTraceUntil_effects_mono (pre rest : List (Nat × Event))
    (s : ServerState) (tEnd : Nat) (eff : Effect)
    (h : eff ∈ (runTraceUntil (runTrace s pre).1 rest tEnd).2) :
    eff ∈ (runTraceUntil s (pre ++ rest) tEnd).2 := by
  induction pre generalizing s with
  | nil => exact h
  | cons te p ih =>
    rw [List.cons_append, runTraceUntil_cons_effects]
    refine List.mem_append_right _ ?_
    apply ih
    rw [← runTrace_cons_state]
    exact h

theorem connect_establishes_armed (s : ServerState) (sid ip ua : String)
    (t0 : Nat) :
    authArmed (handleEvent s t0 (Event.connect sid ip ua)).1 sid
      (t0 + AUTH_TIMEOUT) := by
  unfold handleEvent
  exact ⟨List.mem_append_right _ (List.mem_singleton.mpr rfl),
    _, alookup_aset_self _ _ _, rfl, rfl⟩

theorem stepTimed_connect_armed (s : ServerState) (sid ip ua : String)
    (t0 : Nat) :
    authArmed (stepTimed s (t0, Event.connect sid ip ua)).1 sid
      (t0 + AUTH_TIMEOUT) := by
  unfold stepTimed
  rcases hfd : fireDueTimers s t0 with ⟨s1, e1⟩
  simp only
  rcases hhe : handleEvent s1 t0 (Event.connect sid ip ua) with ⟨s2, e2⟩
  simp only
  have h := connect_establishes_armed s1 sid ip ua t0
  rw [hhe] at h
  exact h

/-- Claim C8 (confirmed).  In every run in which a session connects at time
`t0` and then sends no `hello` (and its peer does not close the transport),
once the clock reaches `t0 + AUTH_TIMEOUT` (30s) the session is force-closed
with reason "Authentication timeout"; and along every prefix of the run the
session never appears in any room's membership, neither as controller nor
in any client set. -/
theorem auth_timeout_enforced (pre post : List (Nat × Event))
    (sid ip ua : String) (t0 tEnd : Nat)
    (hpreH : ∀ te ∈ pre, isHelloFromB sid te.2 = false)
    (hpostH : ∀ te ∈ post, isHelloFromB sid te.2 = false)
    (hpostC : ∀ te ∈ post, isSocketCloseB sid te.2 = false)
    (htEnd : t0 + AUTH_TIMEOUT ≤ tEnd) :
    (Effect.closeSock sid "Authentication timeout" ∈
      (runTraceUntil initialState
        (pre ++ (t0, Event.connect sid ip ua) :: post) tEnd).2) ∧
    (∀ p, p <+: (pre ++ (t0, Event.connect sid ip ua) :: post) →
      ¬ memberOf (runTrace initialState p).1 sid) := by
  constructor
  · apply runTraceUntil_effects_mono
    rw [runTraceUntil_cons_effects]
    refine List.mem_append_right _ ?_
    exact runTraceUntil_fires post _ sid (t0 + AUTH_TIMEOUT) tEnd
      (stepTimed_connect_armed _ sid ip ua t0) hpostH hpostC htEnd
  · intro p hp
    have hfull : ∀ te ∈ (pre ++ (t0, Event.connect sid ip ua) :: post),
        isHelloFromB sid te.2 = false := by
      intro te hte
      rcases List.mem_append.mp hte with h1 | h1
      · exact hpreH te h1
      · rcases List.mem_cons.mp h1 with h2 | h2
        · subst h2; rfl
        · exact hpostH te h2
    refine runTrace_no_new_member p initialState sid ?_ ?_
    · intro te hte
      exact hfull te (hp.subset hte)
    · simp [memberOf, roomsHaveMember, initialState]

/-- Witness for C8: a single connection at t=0 that never authenticates; at
t=30000 the close effect with reason "Authentication timeout" has been
emitted and the session was never a member of any room. -/
theorem auth_timeout_enforced_witness :
    (Effect.closeSock "x" "Authentication timeout" ∈
      (runTraceUntil initialState [(0, Event.connect "x" "i" "u")] 30000).2) ∧
    (∀ p, p <+: [(0, Event.connect "x" "i" "u")] →
      ¬ memberOf (runTrace initialState p).1 "x") :=
  auth_timeout_enforced [] [] "x" "i" "u" 0 30000
    (by simp) (by simp) (by simp) (by decide)

end MetricsHost
